import Mathlib

set_option maxHeartbeats 4000000
set_option maxRecDepth 4000

/-!
Shallow embedding of src/dbus-autosleep.py.

The decision engine is the function `update_ess_mode` (source lines 129-362),
which runs once per tick over a set of module globals (source lines 115-127).
We model the globals as the state record `St` and the per-tick environment
(sensor reads, telemetry-write outcomes, the enable marker file, the
controller round-trips) as the record `Input`; `tick` is the step function.

Sensor reads return `Option` values (`none` = the d-bus call raised).  Each
telemetry ("debug") write may fail; the record `Tel` holds one flag per debug
path (`true` = the write to that path raises this tick).  A raised exception
propagates to the nearest enclosing handler exactly as in the source: the
three sensor `try` blocks substitute fallbacks, a grid-power failure or any
failure in the main block ends the process (`Fatal`).  Because Python mutates
the globals in place, a fatal tick still carries the partially updated state
out in `TickResult.st`; the process exits, so that state is never consumed by
a later tick of the same execution.
-/

namespace DbusAutosleep

/-- Debounce time for charge/feed-in timeouts, in ticks (source line 41). -/
def THRESHOLD_DEBOUNCE : Int := 10

/-- Feed-in timer ceiling, in ticks (source line 44). -/
def FEED_IN_TIMEOUT : Int := 3600

/-- Grid threshold for inverter activation, W (source line 47). -/
def FEED_IN_THRESHOLD : Int := 100

/-- Grid threshold for inverter deactivation, W (source line 50). -/
def FEED_IN_DISABLE_THRESHOLD : Int := 50

/-- Charge timer ceiling, in ticks (source line 53). -/
def CHARGE_TIMEOUT : Int := 3600

/-- Grid threshold for charger activation, W (source line 56). -/
def CHARGE_THRESHOLD : Int := -100

/-- Grid threshold for charger deactivation, W (source line 59). -/
def CHARGE_DISABLE_THRESHOLD : Int := -50

/-- Stabilisation time for feed-in or charge request, in ticks (source line 62). -/
def STABLE_TIMER : Int := 60

/-- Minimum time between changes of inverter mode, in ticks (source line 65). -/
def LOCK_TIME : Int := 600

/-- VE_MODE_CHARGER_ONLY (source line 99). -/
def VE_MODE_CHARGER_ONLY : Int := 1

/-- VE_MODE_INVERTER_ONLY (source line 100). -/
def VE_MODE_INVERTER_ONLY : Int := 2

/-- VE_MODE_ON (source line 101). -/
def VE_MODE_ON : Int := 3

/-- VE_MODE_OFF (source line 102). -/
def VE_MODE_OFF : Int := 4

/-- Per-tick telemetry-write outcomes: one flag per debug d-bus path written by
`update_ess_mode`; `true` means the assignment to that path raises this tick. -/
structure Tel where
  wFeedInAllowed : Bool
  wChargeAllowed : Bool
  wEssPower : Bool
  wGridPower : Bool
  wPvPower : Bool
  wPvInverterStatus : Bool
  wResidualLoad : Bool
  wTotalLoad : Bool
  wFeedInDebounce : Bool
  wFeedInTimeout : Bool
  wFeedInRequest : Bool
  wFeedInRequestStableTimer : Bool
  wFeedInRequestStable : Bool
  wChargeDebounce : Bool
  wChargeTimeout : Bool
  wChargeRequest : Bool
  wChargeRequestStableTimer : Bool
  wChargeRequestStable : Bool
  wMode : Bool
  wModeOutput : Bool
  wModeLockTime : Bool
deriving DecidableEq

/-- Telemetry environment in which every debug write succeeds. -/
def telOk : Tel :=
  ⟨false, false, false, false, false, false, false, false, false, false, false,
   false, false, false, false, false, false, false, false, false, false⟩

/-- One tick's external environment: the result of each d-bus `GetValue` call
(`none` = the call raises), whether the enable marker file exists
(`os.path.isfile` on line 320), whether `Mode.SetValue` succeeds, and the
telemetry-write outcomes.  `essPower` carries the raw value together with a
flag telling whether the reading `isinstance`-checks as `dbus.Int32`
(source line 146). -/
structure Input where
  disableFeedIn : Option Int
  disableCharge : Option Int
  essPower : Option (Int × Bool)
  gridPower : Option Int
  pvStatus : Option Int
  pvPower : Option Int
  batterySoc : Option Int
  markerPresent : Bool
  modeRead : Option Int
  setModeOk : Bool
  tel : Tel
deriving DecidableEq

/-- The module globals of the engine (source lines 115-127), plus
`mode_current` as re-read at startup (source line 426). -/
structure St where
  grid_import_debounce : Int
  grid_import_timer : Int
  grid_export_debounce : Int
  grid_export_timer : Int
  feed_in_unstable : Bool
  feed_in_stable : Bool
  feed_in_stable_timer : Int
  charge_unstable : Bool
  charge_stable : Bool
  charge_stable_timer : Int
  mode_current : Int
  mode_change_lock_timer : Int
  output_enabled : Bool
deriving DecidableEq

/-- The state at process start: globals initialised on lines 115-127, and
`mode_current` overwritten with the controller's actual mode `m0` on
line 426 before the first tick. -/
def initSt (m0 : Int) : St :=
  { grid_import_debounce := THRESHOLD_DEBOUNCE
    grid_import_timer := 0
    grid_export_debounce := THRESHOLD_DEBOUNCE
    grid_export_timer := 0
    feed_in_unstable := false
    feed_in_stable := false
    feed_in_stable_timer := STABLE_TIMER
    charge_unstable := false
    charge_stable := false
    charge_stable_timer := STABLE_TIMER
    mode_current := m0
    mode_change_lock_timer := LOCK_TIME
    output_enabled := true }

/-- How a tick ends when an exception escapes to a terminating handler:
`gridExit` is the grid-power handler (log, sleep 30 s, exit, lines 156-161),
`mainExit` is the whole-pipeline handler (log, sleep 10 s, exit, lines
355-360). -/
inductive Fatal
  | gridExit
  | mainExit
deriving DecidableEq

/-- Result of one tick: the state of the globals when the tick ends (partially
updated if the tick died), how it ended, the `Mode.SetValue` call issued if
any, and the per-tick observables the claims talk about (the two raw
candidates of lines 221 and 280 and the selected mode of lines 305-313),
`none` when the tick died before computing them. -/
structure TickResult where
  st : St
  fatal : Option Fatal
  modeWrite : Option Int
  feedInCand : Option Bool
  chargeCand : Option Bool
  modeSel : Option Int
deriving DecidableEq

/-- Effective feed-in permission (source lines 130-139): `DisableFeedIn == 0`,
falling back to `True` when either read or either debug write in the same
`try` block raises. -/
def feedInAllowedOf (i : Input) : Bool :=
  match i.disableFeedIn, i.disableCharge with
  | some dfi, some _ =>
    if i.tel.wFeedInAllowed || i.tel.wChargeAllowed then true else decide (dfi = 0)
  | _, _ => true

/-- Effective charge permission (source lines 130-139): `DisableCharge == 0`,
with the same shared fallback as `feedInAllowedOf`. -/
def chargeAllowedOf (i : Input) : Bool :=
  match i.disableFeedIn, i.disableCharge with
  | some _, some dch =>
    if i.tel.wFeedInAllowed || i.tel.wChargeAllowed then true else decide (dch = 0)
  | _, _ => true

/-- Effective ESS power (source lines 141-149): the raw reading, `0` when the
read or the `/EssPower` debug write raises, and `0` when the reading is not a
`dbus.Int32` (the type guard on line 146). -/
def essPowerOf (i : Input) : Int :=
  match i.essPower with
  | none => 0
  | some (v, isI32) => if i.tel.wEssPower then 0 else if isI32 then v else 0

/-- Effective PV inverter status (source lines 163-171): the raw reading,
`0` when any read or debug write of the PV `try` block raises. -/
def pvStatusOf (i : Input) : Int :=
  match i.pvStatus, i.pvPower with
  | some st, some _ =>
    if i.tel.wPvPower || i.tel.wPvInverterStatus then 0 else st
  | _, _ => 0

/-- Effective PV power (source lines 163-171): the raw reading, `-1` when any
read or debug write of the PV `try` block raises. -/
def pvPowerOf (i : Input) : Int :=
  match i.pvStatus, i.pvPower with
  | some _, some p =>
    if i.tel.wPvPower || i.tel.wPvInverterStatus then -1 else p
  | _, _ => -1

/-- Residual load (source line 178): grid power minus ESS power.  Only
meaningful on ticks where the grid read succeeded (otherwise the tick is
fatal before this line). -/
def residualOf (i : Input) : Int :=
  i.gridPower.getD 0 - essPowerOf i

/-- Debounce update of one channel (source lines 193-197 and 251-255):
reset to `THRESHOLD_DEBOUNCE` when the disable threshold is not exceeded,
decrement while positive otherwise. -/
def debounceStep (exceeded : Bool) (d : Int) : Int :=
  if !exceeded then THRESHOLD_DEBOUNCE
  else if d > 0 then d - 1
  else d

/-- Timeout update of one channel (source lines 204-207 and 262-265):
reset to the channel ceiling whenever the updated debounce counter is `0`,
decrement while positive otherwise. -/
def timeoutStep (ceiling d t : Int) : Int :=
  if d = 0 then ceiling
  else if t > 0 then t - 1
  else t

/-- The stabilizer state of one channel: the candidate being settled, the
last committed value, and the settle countdown. -/
structure Stab where
  unstable : Bool
  stable : Bool
  timer : Int
deriving DecidableEq

/-- Stabilizer update of one channel (source lines 229-235 and 288-294):
a changed candidate restarts the countdown, an unchanged candidate counts
down, and once the countdown is spent the candidate is committed. -/
def stabStep (c : Bool) (s : Stab) : Stab :=
  if c ≠ s.unstable then ⟨c, s.stable, STABLE_TIMER⟩
  else if s.timer > 0 then ⟨s.unstable, s.stable, s.timer - 1⟩
  else ⟨s.unstable, s.unstable, s.timer⟩

/-- The feed-in stabilizer state inside the full engine state. -/
def feedStab (s : St) : Stab :=
  ⟨s.feed_in_unstable, s.feed_in_stable, s.feed_in_stable_timer⟩

/-- The charge stabilizer state inside the full engine state. -/
def chargeStab (s : St) : Stab :=
  ⟨s.charge_unstable, s.charge_stable, s.charge_stable_timer⟩

/-- Mode selection (source lines 305-313): `On` if the feed-in stable flag is
set, else `On` if the charge stable flag is set, else `Off`. -/
def modeSelect (fi ch : Bool) : Int :=
  if fi then VE_MODE_ON
  else if ch then VE_MODE_ON
  else VE_MODE_OFF

/-- Final telemetry write of a tick, `/ModeLockTime` (source line 353). -/
def finishTick (i : Input) (fic chc : Bool) (msel : Int) (w : Option Int)
    (s : St) : TickResult :=
  if i.tel.wModeLockTime then ⟨s, some .mainExit, w, some fic, some chc, some msel⟩
  else ⟨s, none, w, some fic, some chc, some msel⟩

/-- The mode-lock section of a tick (source lines 331-353), entered with the
state as it stands after the enable-switch section: decrement the lock while
positive, otherwise commit a differing target mode (read battery SoC for the
log, update `mode_current`, re-arm the lock, publish `/ModeOutput`, and issue
`Mode.SetValue` only while output is enabled), then publish `/ModeLockTime`. -/
def lockSection (i : Input) (fic chc : Bool) (mode_new : Int) (s : St) :
    TickResult :=
  if s.mode_change_lock_timer > 0 then
    finishTick i fic chc mode_new none
      { s with mode_change_lock_timer := s.mode_change_lock_timer - 1 }
  else if s.mode_current ≠ mode_new then
    match i.batterySoc with
    | none => ⟨s, some .mainExit, none, some fic, some chc, some mode_new⟩
    | some _ =>
      let s' : St := { s with mode_current := mode_new,
                              mode_change_lock_timer := LOCK_TIME }
      if i.tel.wModeOutput then
        ⟨s', some .mainExit, none, some fic, some chc, some mode_new⟩
      else if s.output_enabled then
        if i.setModeOk then finishTick i fic chc mode_new (some mode_new) s'
        else ⟨s', some .mainExit, some mode_new, some fic, some chc, some mode_new⟩
      else finishTick i fic chc mode_new none s'
  else finishTick i fic chc mode_new none s

/-- Feed-in debounce phase (source lines 192-198): update
`grid_import_debounce` from the deactivation threshold on the residual load. -/
def feedDebPhase (r : Int) (s : St) : St :=
  let d := debounceStep (decide (r > FEED_IN_DISABLE_THRESHOLD)) s.grid_import_debounce
  { s with grid_import_debounce := d }

/-- Feed-in timeout phase (source lines 203-208): update `grid_import_timer`
from the already-updated debounce counter. -/
def feedTimPhase (s : St) : St :=
  let t := timeoutStep FEED_IN_TIMEOUT s.grid_import_debounce s.grid_import_timer
  { s with grid_import_timer := t }

/-- The raw feed-in candidate `feed_in_new` (source lines 219-221), evaluated
on the state after the feed-in timeout phase. -/
def feedCandOf (i : Input) (r : Int) (s : St) : Bool :=
  feedInAllowedOf i &&
    ((s.feed_in_stable && decide (s.grid_import_timer > 0)) ||
     (!s.feed_in_stable && decide (r > FEED_IN_THRESHOLD)))

/-- Feed-in stabilizer phase (source lines 228-235). -/
def feedStabPhase (c : Bool) (s : St) : St :=
  let t := stabStep c (feedStab s)
  { s with feed_in_unstable := t.unstable, feed_in_stable := t.stable,
           feed_in_stable_timer := t.timer }

/-- Charge debounce phase (source lines 250-256). -/
def chgDebPhase (r : Int) (s : St) : St :=
  let d := debounceStep (decide (r < CHARGE_DISABLE_THRESHOLD)) s.grid_export_debounce
  { s with grid_export_debounce := d }

/-- Charge timeout phase (source lines 261-266). -/
def chgTimPhase (s : St) : St :=
  let t := timeoutStep CHARGE_TIMEOUT s.grid_export_debounce s.grid_export_timer
  { s with grid_export_timer := t }

/-- The raw charge candidate `charge_new` (source lines 246, 278-280),
evaluated on the state after the charge timeout phase. -/
def chargeCandOf (i : Input) (r : Int) (s : St) : Bool :=
  chargeAllowedOf i &&
    ((s.charge_stable && decide (s.grid_export_timer > 0)) ||
     (!s.charge_stable && decide (r < CHARGE_THRESHOLD))) &&
    (decide (pvStatusOf i = 11) || decide (pvStatusOf i = 12))

/-- Charge stabilizer phase (source lines 287-294). -/
def chgStabPhase (c : Bool) (s : St) : St :=
  let t := stabStep c (chargeStab s)
  { s with charge_unstable := t.unstable, charge_stable := t.stable,
           charge_stable_timer := t.timer }

/-- Enable-switch polling (source lines 319-320): `output_enabled` tracks the
marker file. -/
def enablePhase (i : Input) (s : St) : St :=
  { s with output_enabled := i.markerPresent }

/-- Resynchronisation on a false-to-true switch transition (source lines
321-324): re-read the controller's mode and clear the lock. -/
def resyncSt (cm : Int) (s : St) : St :=
  { s with mode_current := cm, mode_change_lock_timer := 0 }

/-- One tick of the engine: `update_ess_mode` (source lines 129-362) as a
function from the per-tick environment and the globals to the tick result. -/
def tick (i : Input) (s : St) : TickResult :=
  match i.gridPower with
  | none => ⟨s, some .gridExit, none, none, none, none⟩
  | some gp =>
    if i.tel.wGridPower then ⟨s, some .gridExit, none, none, none, none⟩ else
    let r := gp - essPowerOf i
    if i.tel.wResidualLoad || i.tel.wTotalLoad then
      ⟨s, some .mainExit, none, none, none, none⟩ else
    let sa := feedDebPhase r s
    if i.tel.wFeedInDebounce then ⟨sa, some .mainExit, none, none, none, none⟩ else
    let sb := feedTimPhase sa
    if i.tel.wFeedInTimeout then ⟨sb, some .mainExit, none, none, none, none⟩ else
    let fc := feedCandOf i r sb
    if i.tel.wFeedInRequest then ⟨sb, some .mainExit, none, some fc, none, none⟩ else
    let sc := feedStabPhase fc sb
    if i.tel.wFeedInRequestStableTimer || i.tel.wFeedInRequestStable then
      ⟨sc, some .mainExit, none, some fc, none, none⟩ else
    let sd := chgDebPhase r sc
    if i.tel.wChargeDebounce then ⟨sd, some .mainExit, none, some fc, none, none⟩ else
    let se := chgTimPhase sd
    if i.tel.wChargeTimeout then ⟨se, some .mainExit, none, some fc, none, none⟩ else
    let cc := chargeCandOf i r se
    if i.tel.wChargeRequest then ⟨se, some .mainExit, none, some fc, some cc, none⟩ else
    let sf := chgStabPhase cc se
    if i.tel.wChargeRequestStableTimer || i.tel.wChargeRequestStable then
      ⟨sf, some .mainExit, none, some fc, some cc, none⟩ else
    let m := modeSelect sf.feed_in_stable sf.charge_stable
    if i.tel.wMode then ⟨sf, some .mainExit, none, some fc, some cc, some m⟩ else
    let sg := enablePhase i sf
    if i.markerPresent && !sf.output_enabled then
      match i.modeRead with
      | none => ⟨sg, some .mainExit, none, some fc, some cc, some m⟩
      | some cm => lockSection i fc cc m (resyncSt cm sg)
    else lockSection i fc cc m sg

/-- Iterated ticks: the state of the globals after consuming the input list. -/
def sysRun (s : St) (l : List Input) : St :=
  match l with
  | [] => s
  | i :: r => sysRun (tick i s).st r

/-- Per-tick trace of controller writes: `true` at position `t` iff tick `t`
issued a `Mode.SetValue` call. -/
def writeTrace (s : St) (l : List Input) : List Bool :=
  match l with
  | [] => []
  | i :: r => (tick i s).modeWrite.isSome :: writeTrace (tick i s).st r

/-- Per-tick trace of the raw feed-in candidates (`feed_in_new`, line 221). -/
def feedCandTrace (s : St) (l : List Input) : List Bool :=
  match l with
  | [] => []
  | i :: r => (tick i s).feedInCand.getD false :: feedCandTrace (tick i s).st r

/-- Per-tick trace of the raw charge candidates (`charge_new`, line 280). -/
def chargeCandTrace (s : St) (l : List Input) : List Bool :=
  match l with
  | [] => []
  | i :: r => (tick i s).chargeCand.getD false :: chargeCandTrace (tick i s).st r

/-- An execution is fatal-free: every tick of the list ran to completion.
After a fatal tick the process has exited, so any actual multi-tick execution
satisfies this on its prefix. -/
def okRun (s : St) (l : List Input) : Bool :=
  match l with
  | [] => true
  | i :: r => decide ((tick i s).fatal = none) && okRun (tick i s).st r

/-- Iterated stabilizer component. -/
def stabRun (t : Stab) (l : List Bool) : Stab :=
  match l with
  | [] => t
  | c :: r => stabRun (stabStep c t) r

/-- Run invariant of the stabilizer: the settle countdown is within bounds
and the last `STABLE_TIMER - timer` inputs all equal the candidate being
settled. -/
def stabInv (l : List Bool) (u : Stab) : Prop :=
  0 ≤ u.timer ∧ u.timer ≤ STABLE_TIMER ∧
  STABLE_TIMER - u.timer ≤ (l.length : Int) ∧
  ∀ j : Nat, (l.length : Int) - (STABLE_TIMER - u.timer) ≤ (j : Int) →
    j < l.length → l.getD j false = u.unstable

/-- The per-channel counter bounds stated by the spec's data-model invariant. -/
def StInv (s : St) : Prop :=
  0 ≤ s.grid_import_debounce ∧ s.grid_import_debounce ≤ THRESHOLD_DEBOUNCE ∧
  0 ≤ s.grid_import_timer ∧ s.grid_import_timer ≤ FEED_IN_TIMEOUT ∧
  0 ≤ s.grid_export_debounce ∧ s.grid_export_debounce ≤ THRESHOLD_DEBOUNCE ∧
  0 ≤ s.grid_export_timer ∧ s.grid_export_timer ≤ CHARGE_TIMEOUT ∧
  0 ≤ s.feed_in_stable_timer ∧ s.feed_in_stable_timer ≤ STABLE_TIMER ∧
  0 ≤ s.charge_stable_timer ∧ s.charge_stable_timer ≤ STABLE_TIMER

instance (s : St) : Decidable (StInv s) := by
  unfold StInv; infer_instance

/-- All telemetry writes that are fatal when they fail succeed this tick:
the grid-power debug write and every debug write of the main block. -/
def mainTelOk (t : Tel) : Bool :=
  !t.wGridPower && !t.wResidualLoad && !t.wTotalLoad && !t.wFeedInDebounce &&
  !t.wFeedInTimeout && !t.wFeedInRequest && !t.wFeedInRequestStableTimer &&
  !t.wFeedInRequestStable && !t.wChargeDebounce && !t.wChargeTimeout &&
  !t.wChargeRequest && !t.wChargeRequestStableTimer && !t.wChargeRequestStable &&
  !t.wMode && !t.wModeOutput && !t.wModeLockTime

/-- A fully successful baseline tick environment: every read succeeds (zero
power everywhere, SoC 50, PV idle), the marker file is present, the
controller reports mode `On`, and every write succeeds. -/
def inpBase : Input :=
  { disableFeedIn := some 0
    disableCharge := some 0
    essPower := some (0, true)
    gridPower := some 0
    pvStatus := some 0
    pvPower := some 0
    batterySoc := some 50
    markerPresent := true
    modeRead := some 3
    setModeOk := true
    tel := telOk }

/-- Baseline environment in which every optional sensor read fails in some
way: permission flags unreadable, ESS power present but not a `dbus.Int32`,
PV status unreadable. -/
def inpFallback : Input :=
  { inpBase with disableFeedIn := none, essPower := some (7, false),
                 pvStatus := none }

/-- Baseline environment with 150 W of residual load. -/
def inp150 : Input := { inpBase with gridPower := some 150 }

/-- Baseline environment with the enable marker file absent. -/
def inpOff : Input := { inpBase with markerPresent := false }

/-- Baseline environment whose `/ResidualLoad` telemetry write fails. -/
def inpTelRes : Input :=
  { inp150 with tel := { telOk with wResidualLoad := true } }

/-- Baseline environment whose `/EssPower` telemetry write fails. -/
def inpTelEss : Input :=
  { inpBase with tel := { telOk with wEssPower := true } }

/-- Baseline environment whose `/GridPower` telemetry write fails. -/
def inpTelGrid : Input :=
  { inpBase with tel := { telOk with wGridPower := true } }

/-- Environment with 150 W residual load whose `/ModeLockTime` telemetry
write fails. -/
def inpTelMain : Input :=
  { inp150 with tel := { telOk with wModeLockTime := true } }

/-- Baseline environment whose `/ModeOutput` telemetry write fails. -/
def inpTelModeOut : Input :=
  { inpBase with tel := { telOk with wModeOutput := true } }

/-- A settled state: counters exhausted, both channels stably off, mode `Off`
held, lock expired, output enabled.  It is a fixed point of `tick inpBase`. -/
def sFix : St :=
  { grid_import_debounce := THRESHOLD_DEBOUNCE
    grid_import_timer := 0
    grid_export_debounce := THRESHOLD_DEBOUNCE
    grid_export_timer := 0
    feed_in_unstable := false
    feed_in_stable := false
    feed_in_stable_timer := 0
    charge_unstable := false
    charge_stable := false
    charge_stable_timer := 0
    mode_current := VE_MODE_OFF
    mode_change_lock_timer := 0
    output_enabled := true }

/-- State after the feed-in debounce and timeout phases of a tick. -/
def tickSb (i : Input) (s : St) : St :=
  feedTimPhase (feedDebPhase (residualOf i) s)

/-- The raw feed-in candidate computed by a tick. -/
def tickFc (i : Input) (s : St) : Bool :=
  feedCandOf i (residualOf i) (tickSb i s)

/-- State after the feed-in stabilizer phase of a tick. -/
def tickSc (i : Input) (s : St) : St :=
  feedStabPhase (tickFc i s) (tickSb i s)

/-- State after the charge debounce and timeout phases of a tick. -/
def tickSe (i : Input) (s : St) : St :=
  chgTimPhase (chgDebPhase (residualOf i) (tickSc i s))

/-- The raw charge candidate computed by a tick. -/
def tickCc (i : Input) (s : St) : Bool :=
  chargeCandOf i (residualOf i) (tickSe i s)

/-- State after the charge stabilizer phase of a tick. -/
def tickSf (i : Input) (s : St) : St :=
  chgStabPhase (tickCc i s) (tickSe i s)

/-- The target mode selected by a tick. -/
def tickM (i : Input) (s : St) : Int :=
  modeSelect (tickSf i s).feed_in_stable (tickSf i s).charge_stable

/-- State after the enable-switch polling of a tick. -/
def tickSg (i : Input) (s : St) : St :=
  enablePhase i (tickSf i s)

/-!
Projection equations for the per-tick phases, so that proofs can read single
fields of a phase composition without expanding the state record.
-/
@[simp] theorem feedDebPhase_grid_import_debounce (r : Int) (s : St) :
    (feedDebPhase r s).grid_import_debounce = debounceStep (decide (r > FEED_IN_DISABLE_THRESHOLD)) s.grid_import_debounce := rfl

@[simp] theorem feedDebPhase_grid_import_timer (r : Int) (s : St) :
    (feedDebPhase r s).grid_import_timer = s.grid_import_timer := rfl

@[simp] theorem feedDebPhase_grid_export_debounce (r : Int) (s : St) :
    (feedDebPhase r s).grid_export_debounce = s.grid_export_debounce := rfl

@[simp] theorem feedDebPhase_grid_export_timer (r : Int) (s : St) :
    (feedDebPhase r s).grid_export_timer = s.grid_export_timer := rfl

@[simp] theorem feedDebPhase_feed_in_unstable (r : Int) (s : St) :
    (feedDebPhase r s).feed_in_unstable = s.feed_in_unstable := rfl

@[simp] theorem feedDebPhase_feed_in_stable (r : Int) (s : St) :
    (feedDebPhase r s).feed_in_stable = s.feed_in_stable := rfl

@[simp] theorem feedDebPhase_feed_in_stable_timer (r : Int) (s : St) :
    (feedDebPhase r s).feed_in_stable_timer = s.feed_in_stable_timer := rfl

@[simp] theorem feedDebPhase_charge_unstable (r : Int) (s : St) :
    (feedDebPhase r s).charge_unstable = s.charge_unstable := rfl

@[simp] theorem feedDebPhase_charge_stable (r : Int) (s : St) :
    (feedDebPhase r s).charge_stable = s.charge_stable := rfl

@[simp] theorem feedDebPhase_charge_stable_timer (r : Int) (s : St) :
    (feedDebPhase r s).charge_stable_timer = s.charge_stable_timer := rfl

@[simp] theorem feedDebPhase_mode_current (r : Int) (s : St) :
    (feedDebPhase r s).mode_current = s.mode_current := rfl

@[simp] theorem feedDebPhase_mode_change_lock_timer (r : Int) (s : St) :
    (feedDebPhase r s).mode_change_lock_timer = s.mode_change_lock_timer := rfl

@[simp] theorem feedDebPhase_output_enabled (r : Int) (s : St) :
    (feedDebPhase r s).output_enabled = s.output_enabled := rfl

@[simp] theorem feedTimPhase_grid_import_debounce (s : St) :
    (feedTimPhase s).grid_import_debounce = s.grid_import_debounce := rfl

@[simp] theorem feedTimPhase_grid_import_timer (s : St) :
    (feedTimPhase s).grid_import_timer = timeoutStep FEED_IN_TIMEOUT s.grid_import_debounce s.grid_import_timer := rfl

@[simp] theorem feedTimPhase_grid_export_debounce (s : St) :
    (feedTimPhase s).grid_export_debounce = s.grid_export_debounce := rfl

@[simp] theorem feedTimPhase_grid_export_timer (s : St) :
    (feedTimPhase s).grid_export_timer = s.grid_export_timer := rfl

@[simp] theorem feedTimPhase_feed_in_unstable (s : St) :
    (feedTimPhase s).feed_in_unstable = s.feed_in_unstable := rfl

@[simp] theorem feedTimPhase_feed_in_stable (s : St) :
    (feedTimPhase s).feed_in_stable = s.feed_in_stable := rfl

@[simp] theorem feedTimPhase_feed_in_stable_timer (s : St) :
    (feedTimPhase s).feed_in_stable_timer = s.feed_in_stable_timer := rfl

@[simp] theorem feedTimPhase_charge_unstable (s : St) :
    (feedTimPhase s).charge_unstable = s.charge_unstable := rfl

@[simp] theorem feedTimPhase_charge_stable (s : St) :
    (feedTimPhase s).charge_stable = s.charge_stable := rfl

@[simp] theorem feedTimPhase_charge_stable_timer (s : St) :
    (feedTimPhase s).charge_stable_timer = s.charge_stable_timer := rfl

@[simp] theorem feedTimPhase_mode_current (s : St) :
    (feedTimPhase s).mode_current = s.mode_current := rfl

@[simp] theorem feedTimPhase_mode_change_lock_timer (s : St) :
    (feedTimPhase s).mode_change_lock_timer = s.mode_change_lock_timer := rfl

@[simp] theorem feedTimPhase_output_enabled (s : St) :
    (feedTimPhase s).output_enabled = s.output_enabled := rfl

@[simp] theorem feedStabPhase_grid_import_debounce (c : Bool) (s : St) :
    (feedStabPhase c s).grid_import_debounce = s.grid_import_debounce := rfl

@[simp] theorem feedStabPhase_grid_import_timer (c : Bool) (s : St) :
    (feedStabPhase c s).grid_import_timer = s.grid_import_timer := rfl

@[simp] theorem feedStabPhase_grid_export_debounce (c : Bool) (s : St) :
    (feedStabPhase c s).grid_export_debounce = s.grid_export_debounce := rfl

@[simp] theorem feedStabPhase_grid_export_timer (c : Bool) (s : St) :
    (feedStabPhase c s).grid_export_timer = s.grid_export_timer := rfl

@[simp] theorem feedStabPhase_feed_in_unstable (c : Bool) (s : St) :
    (feedStabPhase c s).feed_in_unstable = (stabStep c (feedStab s)).unstable := rfl

@[simp] theorem feedStabPhase_feed_in_stable (c : Bool) (s : St) :
    (feedStabPhase c s).feed_in_stable = (stabStep c (feedStab s)).stable := rfl

@[simp] theorem feedStabPhase_feed_in_stable_timer (c : Bool) (s : St) :
    (feedStabPhase c s).feed_in_stable_timer = (stabStep c (feedStab s)).timer := rfl

@[simp] theorem feedStabPhase_charge_unstable (c : Bool) (s : St) :
    (feedStabPhase c s).charge_unstable = s.charge_unstable := rfl

@[simp] theorem feedStabPhase_charge_stable (c : Bool) (s : St) :
    (feedStabPhase c s).charge_stable = s.charge_stable := rfl

@[simp] theorem feedStabPhase_charge_stable_timer (c : Bool) (s : St) :
    (feedStabPhase c s).charge_stable_timer = s.charge_stable_timer := rfl

@[simp] theorem feedStabPhase_mode_current (c : Bool) (s : St) :
    (feedStabPhase c s).mode_current = s.mode_current := rfl

@[simp] theorem feedStabPhase_mode_change_lock_timer (c : Bool) (s : St) :
    (feedStabPhase c s).mode_change_lock_timer = s.mode_change_lock_timer := rfl

@[simp] theorem feedStabPhase_output_enabled (c : Bool) (s : St) :
    (feedStabPhase c s).output_enabled = s.output_enabled := rfl

@[simp] theorem chgDebPhase_grid_import_debounce (r : Int) (s : St) :
    (chgDebPhase r s).grid_import_debounce = s.grid_import_debounce := rfl

@[simp] theorem chgDebPhase_grid_import_timer (r : Int) (s : St) :
    (chgDebPhase r s).grid_import_timer = s.grid_import_timer := rfl

@[simp] theorem chgDebPhase_grid_export_debounce (r : Int) (s : St) :
    (chgDebPhase r s).grid_export_debounce = debounceStep (decide (r < CHARGE_DISABLE_THRESHOLD)) s.grid_export_debounce := rfl

@[simp] theorem chgDebPhase_grid_export_timer (r : Int) (s : St) :
    (chgDebPhase r s).grid_export_timer = s.grid_export_timer := rfl

@[simp] theorem chgDebPhase_feed_in_unstable (r : Int) (s : St) :
    (chgDebPhase r s).feed_in_unstable = s.feed_in_unstable := rfl

@[simp] theorem chgDebPhase_feed_in_stable (r : Int) (s : St) :
    (chgDebPhase r s).feed_in_stable = s.feed_in_stable := rfl

@[simp] theorem chgDebPhase_feed_in_stable_timer (r : Int) (s : St) :
    (chgDebPhase r s).feed_in_stable_timer = s.feed_in_stable_timer := rfl

@[simp] theorem chgDebPhase_charge_unstable (r : Int) (s : St) :
    (chgDebPhase r s).charge_unstable = s.charge_unstable := rfl

@[simp] theorem chgDebPhase_charge_stable (r : Int) (s : St) :
    (chgDebPhase r s).charge_stable = s.charge_stable := rfl

@[simp] theorem chgDebPhase_charge_stable_timer (r : Int) (s : St) :
    (chgDebPhase r s).charge_stable_timer = s.charge_stable_timer := rfl

@[simp] theorem chgDebPhase_mode_current (r : Int) (s : St) :
    (chgDebPhase r s).mode_current = s.mode_current := rfl

@[simp] theorem chgDebPhase_mode_change_lock_timer (r : Int) (s : St) :
    (chgDebPhase r s).mode_change_lock_timer = s.mode_change_lock_timer := rfl

@[simp] theorem chgDebPhase_output_enabled (r : Int) (s : St) :
    (chgDebPhase r s).output_enabled = s.output_enabled := rfl

@[simp] theorem chgTimPhase_grid_import_debounce (s : St) :
    (chgTimPhase s).grid_import_debounce = s.grid_import_debounce := rfl

@[simp] theorem chgTimPhase_grid_import_timer (s : St) :
    (chgTimPhase s).grid_import_timer = s.grid_import_timer := rfl

@[simp] theorem chgTimPhase_grid_export_debounce (s : St) :
    (chgTimPhase s).grid_export_debounce = s.grid_export_debounce := rfl

@[simp] theorem chgTimPhase_grid_export_timer (s : St) :
    (chgTimPhase s).grid_export_timer = timeoutStep CHARGE_TIMEOUT s.grid_export_debounce s.grid_export_timer := rfl

@[simp] theorem chgTimPhase_feed_in_unstable (s : St) :
    (chgTimPhase s).feed_in_unstable = s.feed_in_unstable := rfl

@[simp] theorem chgTimPhase_feed_in_stable (s : St) :
    (chgTimPhase s).feed_in_stable = s.feed_in_stable := rfl

@[simp] theorem chgTimPhase_feed_in_stable_timer (s : St) :
    (chgTimPhase s).feed_in_stable_timer = s.feed_in_stable_timer := rfl

@[simp] theorem chgTimPhase_charge_unstable (s : St) :
    (chgTimPhase s).charge_unstable = s.charge_unstable := rfl

@[simp] theorem chgTimPhase_charge_stable (s : St) :
    (chgTimPhase s).charge_stable = s.charge_stable := rfl

@[simp] theorem chgTimPhase_charge_stable_timer (s : St) :
    (chgTimPhase s).charge_stable_timer = s.charge_stable_timer := rfl

@[simp] theorem chgTimPhase_mode_current (s : St) :
    (chgTimPhase s).mode_current = s.mode_current := rfl

@[simp] theorem chgTimPhase_mode_change_lock_timer (s : St) :
    (chgTimPhase s).mode_change_lock_timer = s.mode_change_lock_timer := rfl

@[simp] theorem chgTimPhase_output_enabled (s : St) :
    (chgTimPhase s).output_enabled = s.output_enabled := rfl

@[simp] theorem chgStabPhase_grid_import_debounce (c : Bool) (s : St) :
    (chgStabPhase c s).grid_import_debounce = s.grid_import_debounce := rfl

@[simp] theorem chgStabPhase_grid_import_timer (c : Bool) (s : St) :
    (chgStabPhase c s).grid_import_timer = s.grid_import_timer := rfl

@[simp] theorem chgStabPhase_grid_export_debounce (c : Bool) (s : St) :
    (chgStabPhase c s).grid_export_debounce = s.grid_export_debounce := rfl

@[simp] theorem chgStabPhase_grid_export_timer (c : Bool) (s : St) :
    (chgStabPhase c s).grid_export_timer = s.grid_export_timer := rfl

@[simp] theorem chgStabPhase_feed_in_unstable (c : Bool) (s : St) :
    (chgStabPhase c s).feed_in_unstable = s.feed_in_unstable := rfl

@[simp] theorem chgStabPhase_feed_in_stable (c : Bool) (s : St) :
    (chgStabPhase c s).feed_in_stable = s.feed_in_stable := rfl

@[simp] theorem chgStabPhase_feed_in_stable_timer (c : Bool) (s : St) :
    (chgStabPhase c s).feed_in_stable_timer = s.feed_in_stable_timer := rfl

@[simp] theorem chgStabPhase_charge_unstable (c : Bool) (s : St) :
    (chgStabPhase c s).charge_unstable = (stabStep c (chargeStab s)).unstable := rfl

@[simp] theorem chgStabPhase_charge_stable (c : Bool) (s : St) :
    (chgStabPhase c s).charge_stable = (stabStep c (chargeStab s)).stable := rfl

@[simp] theorem chgStabPhase_charge_stable_timer (c : Bool) (s : St) :
    (chgStabPhase c s).charge_stable_timer = (stabStep c (chargeStab s)).timer := rfl

@[simp] theorem chgStabPhase_mode_current (c : Bool) (s : St) :
    (chgStabPhase c s).mode_current = s.mode_current := rfl

@[simp] theorem chgStabPhase_mode_change_lock_timer (c : Bool) (s : St) :
    (chgStabPhase c s).mode_change_lock_timer = s.mode_change_lock_timer := rfl

@[simp] theorem chgStabPhase_output_enabled (c : Bool) (s : St) :
    (chgStabPhase c s).output_enabled = s.output_enabled := rfl

@[simp] theorem enablePhase_grid_import_debounce (i : Input) (s : St) :
    (enablePhase i s).grid_import_debounce = s.grid_import_debounce := rfl

@[simp] theorem enablePhase_grid_import_timer (i : Input) (s : St) :
    (enablePhase i s).grid_import_timer = s.grid_import_timer := rfl

@[simp] theorem enablePhase_grid_export_debounce (i : Input) (s : St) :
    (enablePhase i s).grid_export_debounce = s.grid_export_debounce := rfl

@[simp] theorem enablePhase_grid_export_timer (i : Input) (s : St) :
    (enablePhase i s).grid_export_timer = s.grid_export_timer := rfl

@[simp] theorem enablePhase_feed_in_unstable (i : Input) (s : St) :
    (enablePhase i s).feed_in_unstable = s.feed_in_unstable := rfl

@[simp] theorem enablePhase_feed_in_stable (i : Input) (s : St) :
    (enablePhase i s).feed_in_stable = s.feed_in_stable := rfl

@[simp] theorem enablePhase_feed_in_stable_timer (i : Input) (s : St) :
    (enablePhase i s).feed_in_stable_timer = s.feed_in_stable_timer := rfl

@[simp] theorem enablePhase_charge_unstable (i : Input) (s : St) :
    (enablePhase i s).charge_unstable = s.charge_unstable := rfl

@[simp] theorem enablePhase_charge_stable (i : Input) (s : St) :
    (enablePhase i s).charge_stable = s.charge_stable := rfl

@[simp] theorem enablePhase_charge_stable_timer (i : Input) (s : St) :
    (enablePhase i s).charge_stable_timer = s.charge_stable_timer := rfl

@[simp] theorem enablePhase_mode_current (i : Input) (s : St) :
    (enablePhase i s).mode_current = s.mode_current := rfl

@[simp] theorem enablePhase_mode_change_lock_timer (i : Input) (s : St) :
    (enablePhase i s).mode_change_lock_timer = s.mode_change_lock_timer := rfl

@[simp] theorem enablePhase_output_enabled (i : Input) (s : St) :
    (enablePhase i s).output_enabled = i.markerPresent := rfl

@[simp] theorem resyncSt_grid_import_debounce (cm : Int) (s : St) :
    (resyncSt cm s).grid_import_debounce = s.grid_import_debounce := rfl

@[simp] theorem resyncSt_grid_import_timer (cm : Int) (s : St) :
    (resyncSt cm s).grid_import_timer = s.grid_import_timer := rfl

@[simp] theorem resyncSt_grid_export_debounce (cm : Int) (s : St) :
    (resyncSt cm s).grid_export_debounce = s.grid_export_debounce := rfl

@[simp] theorem resyncSt_grid_export_timer (cm : Int) (s : St) :
    (resyncSt cm s).grid_export_timer = s.grid_export_timer := rfl

@[simp] theorem resyncSt_feed_in_unstable (cm : Int) (s : St) :
    (resyncSt cm s).feed_in_unstable = s.feed_in_unstable := rfl

@[simp] theorem resyncSt_feed_in_stable (cm : Int) (s : St) :
    (resyncSt cm s).feed_in_stable = s.feed_in_stable := rfl

@[simp] theorem resyncSt_feed_in_stable_timer (cm : Int) (s : St) :
    (resyncSt cm s).feed_in_stable_timer = s.feed_in_stable_timer := rfl

@[simp] theorem resyncSt_charge_unstable (cm : Int) (s : St) :
    (resyncSt cm s).charge_unstable = s.charge_unstable := rfl

@[simp] theorem resyncSt_charge_stable (cm : Int) (s : St) :
    (resyncSt cm s).charge_stable = s.charge_stable := rfl

@[simp] theorem resyncSt_charge_stable_timer (cm : Int) (s : St) :
    (resyncSt cm s).charge_stable_timer = s.charge_stable_timer := rfl

@[simp] theorem resyncSt_mode_current (cm : Int) (s : St) :
    (resyncSt cm s).mode_current = cm := rfl

@[simp] theorem resyncSt_mode_change_lock_timer (cm : Int) (s : St) :
    (resyncSt cm s).mode_change_lock_timer = 0 := rfl

@[simp] theorem resyncSt_output_enabled (cm : Int) (s : St) :
    (resyncSt cm s).output_enabled = s.output_enabled := rfl


/-- The mode-lock section never touches `output_enabled`. -/
@[simp] theorem lockSection_output (i : Input) (f c : Bool) (m : Int) (s : St) :
    (lockSection i f c m s).st.output_enabled = s.output_enabled := by
  unfold lockSection finishTick
  repeat' split
  all_goals rfl

/-!
The mode-lock section never touches the channel counters or the stabilizer
state, and always reports the candidates and selected mode it was given;
one projection equation per field.
-/

@[simp] theorem lockSection_st_grid_import_debounce (i : Input) (f' c : Bool) (m : Int) (s : St) :
    (lockSection i f' c m s).st.grid_import_debounce = s.grid_import_debounce := by
  unfold lockSection finishTick
  repeat' split
  all_goals rfl

@[simp] theorem lockSection_st_grid_import_timer (i : Input) (f' c : Bool) (m : Int) (s : St) :
    (lockSection i f' c m s).st.grid_import_timer = s.grid_import_timer := by
  unfold lockSection finishTick
  repeat' split
  all_goals rfl

@[simp] theorem lockSection_st_grid_export_debounce (i : Input) (f' c : Bool) (m : Int) (s : St) :
    (lockSection i f' c m s).st.grid_export_debounce = s.grid_export_debounce := by
  unfold lockSection finishTick
  repeat' split
  all_goals rfl

@[simp] theorem lockSection_st_grid_export_timer (i : Input) (f' c : Bool) (m : Int) (s : St) :
    (lockSection i f' c m s).st.grid_export_timer = s.grid_export_timer := by
  unfold lockSection finishTick
  repeat' split
  all_goals rfl

@[simp] theorem lockSection_st_feed_in_unstable (i : Input) (f' c : Bool) (m : Int) (s : St) :
    (lockSection i f' c m s).st.feed_in_unstable = s.feed_in_unstable := by
  unfold lockSection finishTick
  repeat' split
  all_goals rfl

@[simp] theorem lockSection_st_feed_in_stable (i : Input) (f' c : Bool) (m : Int) (s : St) :
    (lockSection i f' c m s).st.feed_in_stable = s.feed_in_stable := by
  unfold lockSection finishTick
  repeat' split
  all_goals rfl

@[simp] theorem lockSection_st_feed_in_stable_timer (i : Input) (f' c : Bool) (m : Int) (s : St) :
    (lockSection i f' c m s).st.feed_in_stable_timer = s.feed_in_stable_timer := by
  unfold lockSection finishTick
  repeat' split
  all_goals rfl

@[simp] theorem lockSection_st_charge_unstable (i : Input) (f' c : Bool) (m : Int) (s : St) :
    (lockSection i f' c m s).st.charge_unstable = s.charge_unstable := by
  unfold lockSection finishTick
  repeat' split
  all_goals rfl

@[simp] theorem lockSection_st_charge_stable (i : Input) (f' c : Bool) (m : Int) (s : St) :
    (lockSection i f' c m s).st.charge_stable = s.charge_stable := by
  unfold lockSection finishTick
  repeat' split
  all_goals rfl

@[simp] theorem lockSection_st_charge_stable_timer (i : Input) (f' c : Bool) (m : Int) (s : St) :
    (lockSection i f' c m s).st.charge_stable_timer = s.charge_stable_timer := by
  unfold lockSection finishTick
  repeat' split
  all_goals rfl

@[simp] theorem lockSection_feedInCand (i : Input) (f' c : Bool) (m : Int) (s : St) :
    (lockSection i f' c m s).feedInCand = some f' := by
  unfold lockSection finishTick
  repeat' split
  all_goals rfl

@[simp] theorem lockSection_chargeCand (i : Input) (f' c : Bool) (m : Int) (s : St) :
    (lockSection i f' c m s).chargeCand = some c := by
  unfold lockSection finishTick
  repeat' split
  all_goals rfl

@[simp] theorem lockSection_modeSel (i : Input) (f' c : Bool) (m : Int) (s : St) :
    (lockSection i f' c m s).modeSel = some m := by
  unfold lockSection finishTick
  repeat' split
  all_goals rfl

/-- While the lock is still running the mode-lock section only decrements it
and issues no controller write (source lines 331-332). -/
theorem lockSection_locked (i : Input) (f c : Bool) (m : Int) (s : St)
    (h : 0 < s.mode_change_lock_timer) :
    (lockSection i f c m s).modeWrite = none ∧
    (lockSection i f c m s).st.mode_change_lock_timer =
      s.mode_change_lock_timer - 1 := by
  unfold lockSection finishTick
  repeat' split
  all_goals simp_all

/-- A controller write can only be issued by an unlocked, output-enabled
commit, and the commit re-arms the lock to `LOCK_TIME` (lines 333-351). -/
theorem lockSection_write (i : Input) (f c : Bool) (m : Int) (s : St)
    (h : (lockSection i f c m s).modeWrite.isSome = true) :
    (lockSection i f c m s).st.mode_change_lock_timer = LOCK_TIME ∧
    s.mode_change_lock_timer ≤ 0 ∧ s.output_enabled = true ∧
    (lockSection i f c m s).modeWrite = some m := by
  unfold lockSection finishTick at *
  repeat' split
  all_goals simp_all

/-- The mode-lock section completes without an exception as soon as the
battery-SoC read, the `/ModeOutput` write, the `Mode.SetValue` call, and the
`/ModeLockTime` write all succeed. -/
theorem lockSection_fatal (i : Input) (f c : Bool) (m : Int) (s : St)
    (hsoc : i.batterySoc.isSome = true) (hmo : i.tel.wModeOutput = false)
    (hml : i.tel.wModeLockTime = false) (hsv : i.setModeOk = true) :
    (lockSection i f c m s).fatal = none := by
  unfold lockSection finishTick
  repeat' split
  all_goals simp_all

/-- An unlocked section with an already-matching target changes nothing and
writes nothing (lines 333-336 falling through). -/
theorem lockSection_nochange (i : Input) (f c : Bool) (m : Int) (s : St)
    (hl : ¬0 < s.mode_change_lock_timer) (he : s.mode_current = m) :
    (lockSection i f c m s).modeWrite = none ∧
    (lockSection i f c m s).st.mode_current = s.mode_current ∧
    (lockSection i f c m s).st.mode_change_lock_timer =
      s.mode_change_lock_timer := by
  unfold lockSection finishTick
  repeat' split
  all_goals simp_all

/-- An unlocked section with a differing target commits it: `mode_current`
takes the target, the lock re-arms, and — output being enabled and the
needed calls succeeding — the controller write is issued (lines 336-351). -/
theorem lockSection_commit (i : Input) (f c : Bool) (m : Int) (s : St)
    (hl : ¬0 < s.mode_change_lock_timer) (he : s.mode_current ≠ m)
    (hsoc : i.batterySoc.isSome = true) (hmo : i.tel.wModeOutput = false)
    (ho : s.output_enabled = true) (hsv : i.setModeOk = true) :
    (lockSection i f c m s).modeWrite = some m ∧
    (lockSection i f c m s).st.mode_current = m ∧
    (lockSection i f c m s).st.mode_change_lock_timer = LOCK_TIME := by
  unfold lockSection finishTick
  repeat' split
  all_goals simp_all

/-- Case analysis of the mode-lock section used to bound writes: either no
controller write is issued, or the lock re-arms to `LOCK_TIME` and the entry
conditions of a commit held.  The free state `s` is the state at the start of
the enclosing tick; `hx` translates the entry conditions back to it. -/
theorem lockSection_write_cases (i : Input) (f c : Bool) (m : Int) (x s : St)
    (hx : x.mode_change_lock_timer ≤ 0 →
      s.mode_change_lock_timer ≤ 0 ∨
      (s.output_enabled = false ∧ x.output_enabled = true)) :
    (lockSection i f c m x).modeWrite = none ∨
    ((lockSection i f c m x).st.mode_change_lock_timer = LOCK_TIME ∧
     (s.mode_change_lock_timer ≤ 0 ∨
      (s.output_enabled = false ∧
       (lockSection i f c m x).st.output_enabled = true))) := by
  unfold lockSection finishTick
  repeat' split
  all_goals simp_all

/-- Exhaustive case enumeration of one tick: which exception (if any) cut the
tick short, and the exact result in every case.  Downstream proofs case on
this instead of re-traversing the body of `tick`. -/
theorem tick_cases (i : Input) (s : St) :
    (i.gridPower = none ∧
      tick i s = ⟨s, some .gridExit, none, none, none, none⟩) ∨
    (i.tel.wGridPower = true ∧
      tick i s = ⟨s, some .gridExit, none, none, none, none⟩) ∨
    ((i.tel.wResidualLoad || i.tel.wTotalLoad) = true ∧
      tick i s = ⟨s, some .mainExit, none, none, none, none⟩) ∨
    (i.tel.wFeedInDebounce = true ∧
      tick i s = ⟨feedDebPhase (residualOf i) s, some .mainExit, none, none, none, none⟩) ∨
    (i.tel.wFeedInTimeout = true ∧
      tick i s = ⟨tickSb i s, some .mainExit, none, none, none, none⟩) ∨
    (i.tel.wFeedInRequest = true ∧
      tick i s = ⟨tickSb i s, some .mainExit, none, some (tickFc i s), none, none⟩) ∨
    ((i.tel.wFeedInRequestStableTimer || i.tel.wFeedInRequestStable) = true ∧
      tick i s = ⟨tickSc i s, some .mainExit, none, some (tickFc i s), none, none⟩) ∨
    (i.tel.wChargeDebounce = true ∧
      tick i s = ⟨chgDebPhase (residualOf i) (tickSc i s), some .mainExit, none, some (tickFc i s), none, none⟩) ∨
    (i.tel.wChargeTimeout = true ∧
      tick i s = ⟨tickSe i s, some .mainExit, none, some (tickFc i s), none, none⟩) ∨
    (i.tel.wChargeRequest = true ∧
      tick i s = ⟨tickSe i s, some .mainExit, none, some (tickFc i s), some (tickCc i s), none⟩) ∨
    ((i.tel.wChargeRequestStableTimer || i.tel.wChargeRequestStable) = true ∧
      tick i s = ⟨tickSf i s, some .mainExit, none, some (tickFc i s), some (tickCc i s), none⟩) ∨
    (i.tel.wMode = true ∧
      tick i s = ⟨tickSf i s, some .mainExit, none, some (tickFc i s), some (tickCc i s), some (tickM i s)⟩) ∨
    ((i.markerPresent && !s.output_enabled) = true ∧ i.modeRead = none ∧
      tick i s = ⟨tickSg i s, some .mainExit, none, some (tickFc i s), some (tickCc i s), some (tickM i s)⟩) ∨
    (∃ cm, (i.markerPresent && !s.output_enabled) = true ∧ i.modeRead = some cm ∧
      tick i s = lockSection i (tickFc i s) (tickCc i s) (tickM i s) (resyncSt cm (tickSg i s))) ∨
    ((i.markerPresent && !s.output_enabled) = false ∧
      tick i s = lockSection i (tickFc i s) (tickCc i s) (tickM i s) (tickSg i s)) := by
  cases hg : i.gridPower with
  | none => exact Or.inl ⟨rfl, by simp [tick, hg]⟩
  | some gp =>
    by_cases h1 : i.tel.wGridPower = true
    · exact Or.inr (Or.inl ⟨h1, by simp [tick, hg, residualOf, tickSb, tickFc, tickSc, tickSe, tickCc, tickSf, tickM, tickSg, h1]⟩)
    by_cases h2 : (i.tel.wResidualLoad || i.tel.wTotalLoad) = true
    · exact Or.inr (Or.inr (Or.inl ⟨h2, by simp [tick, hg, residualOf, tickSb, tickFc, tickSc, tickSe, tickCc, tickSf, tickM, tickSg, h1, h2]⟩))
    by_cases h3 : i.tel.wFeedInDebounce = true
    · exact Or.inr (Or.inr (Or.inr (Or.inl ⟨h3, by simp [tick, hg, residualOf, tickSb, tickFc, tickSc, tickSe, tickCc, tickSf, tickM, tickSg, h1, h2, h3]⟩)))
    by_cases h4 : i.tel.wFeedInTimeout = true
    · exact Or.inr (Or.inr (Or.inr (Or.inr (Or.inl ⟨h4, by simp [tick, hg, residualOf, tickSb, tickFc, tickSc, tickSe, tickCc, tickSf, tickM, tickSg, h1, h2, h3, h4]⟩))))
    by_cases h5 : i.tel.wFeedInRequest = true
    · exact Or.inr (Or.inr (Or.inr (Or.inr (Or.inr (Or.inl ⟨h5, by simp [tick, hg, residualOf, tickSb, tickFc, tickSc, tickSe, tickCc, tickSf, tickM, tickSg, h1, h2, h3, h4, h5]⟩)))))
    by_cases h6 : (i.tel.wFeedInRequestStableTimer || i.tel.wFeedInRequestStable) = true
    · exact Or.inr (Or.inr (Or.inr (Or.inr (Or.inr (Or.inr (Or.inl ⟨h6, by simp [tick, hg, residualOf, tickSb, tickFc, tickSc, tickSe, tickCc, tickSf, tickM, tickSg, h1, h2, h3, h4, h5, h6]⟩))))))
    by_cases h7 : i.tel.wChargeDebounce = true
    · exact Or.inr (Or.inr (Or.inr (Or.inr (Or.inr (Or.inr (Or.inr (Or.inl ⟨h7, by simp [tick, hg, residualOf, tickSb, tickFc, tickSc, tickSe, tickCc, tickSf, tickM, tickSg, h1, h2, h3, h4, h5, h6, h7]⟩)))))))
    by_cases h8 : i.tel.wChargeTimeout = true
    · exact Or.inr (Or.inr (Or.inr (Or.inr (Or.inr (Or.inr (Or.inr (Or.inr (Or.inl ⟨h8, by simp [tick, hg, residualOf, tickSb, tickFc, tickSc, tickSe, tickCc, tickSf, tickM, tickSg, h1, h2, h3, h4, h5, h6, h7, h8]⟩))))))))
    by_cases h9 : i.tel.wChargeRequest = true
    · exact Or.inr (Or.inr (Or.inr (Or.inr (Or.inr (Or.inr (Or.inr (Or.inr (Or.inr (Or.inl ⟨h9, by simp [tick, hg, residualOf, tickSb, tickFc, tickSc, tickSe, tickCc, tickSf, tickM, tickSg, h1, h2, h3, h4, h5, h6, h7, h8, h9]⟩)))))))))
    by_cases h10 : (i.tel.wChargeRequestStableTimer || i.tel.wChargeRequestStable) = true
    · exact Or.inr (Or.inr (Or.inr (Or.inr (Or.inr (Or.inr (Or.inr (Or.inr (Or.inr (Or.inr (Or.inl ⟨h10, by simp [tick, hg, residualOf, tickSb, tickFc, tickSc, tickSe, tickCc, tickSf, tickM, tickSg, h1, h2, h3, h4, h5, h6, h7, h8, h9, h10]⟩))))))))))
    by_cases h11 : i.tel.wMode = true
    · exact Or.inr (Or.inr (Or.inr (Or.inr (Or.inr (Or.inr (Or.inr (Or.inr (Or.inr (Or.inr (Or.inr (Or.inl ⟨h11, by simp [tick, hg, residualOf, tickSb, tickFc, tickSc, tickSe, tickCc, tickSf, tickM, tickSg, h1, h2, h3, h4, h5, h6, h7, h8, h9, h10, h11]⟩)))))))))))
    by_cases h12 : (i.markerPresent && !s.output_enabled) = true
    · cases hmr : i.modeRead with
      | none =>
        exact Or.inr (Or.inr (Or.inr (Or.inr (Or.inr (Or.inr (Or.inr (Or.inr (Or.inr (Or.inr (Or.inr (Or.inr (Or.inl ⟨h12, rfl, by simp [tick, hg, residualOf, tickSb, tickFc, tickSc, tickSe, tickCc, tickSf, tickM, tickSg, h1, h2, h3, h4, h5, h6, h7, h8, h9, h10, h11, h12, hmr]⟩))))))))))))
      | some cm =>
        exact Or.inr (Or.inr (Or.inr (Or.inr (Or.inr (Or.inr (Or.inr (Or.inr (Or.inr (Or.inr (Or.inr (Or.inr (Or.inr (Or.inl ⟨cm, h12, rfl, by simp [tick, hg, residualOf, tickSb, tickFc, tickSc, tickSe, tickCc, tickSf, tickM, tickSg, h1, h2, h3, h4, h5, h6, h7, h8, h9, h10, h11, h12, hmr]⟩)))))))))))))
    · exact Or.inr (Or.inr (Or.inr (Or.inr (Or.inr (Or.inr (Or.inr (Or.inr (Or.inr (Or.inr (Or.inr (Or.inr (Or.inr (Or.inr (⟨by simpa using h12, by simp [tick, hg, residualOf, tickSb, tickFc, tickSc, tickSe, tickCc, tickSf, tickM, tickSg, h1, h2, h3, h4, h5, h6, h7, h8, h9, h10, h11, h12]⟩))))))))))))))


/-- While the marker file is present, a tick that starts with output enabled
ends with output enabled: `output_enabled` is either untouched (the tick died
before line 320) or set to the marker-file flag. -/
theorem tick_output_enabled (i : Input) (s : St)
    (ho : s.output_enabled = true) (hm : i.markerPresent = true) :
    (tick i s).st.output_enabled = true := by
  cases hg : i.gridPower with
  | none => simp [tick, hg, ho]
  | some gp =>
    cases hmr : i.modeRead with
    | none =>
      simp [tick, hg, hmr, apply_ite TickResult.st, apply_ite St.output_enabled,
        lockSection_output, ho, hm, ite_self]
    | some cm =>
      simp [tick, hg, hmr, apply_ite TickResult.st, apply_ite St.output_enabled,
        lockSection_output, ho, hm, ite_self]

/-- Per-tick write bound: either the tick issues no controller write, or it
re-arms the lock to `LOCK_TIME` and it was entered either with the lock spent
or through an enable-switch resynchronisation. -/
theorem tick_write_cases (i : Input) (s : St) :
    (tick i s).modeWrite = none ∨
    ((tick i s).st.mode_change_lock_timer = LOCK_TIME ∧
     (s.mode_change_lock_timer ≤ 0 ∨
      (s.output_enabled = false ∧ (tick i s).st.output_enabled = true))) := by
  rcases tick_cases i s with ⟨h, he⟩ | ⟨h, he⟩ | ⟨h, he⟩ | ⟨h, he⟩ | ⟨h, he⟩ |
    ⟨h, he⟩ | ⟨h, he⟩ | ⟨h, he⟩ | ⟨h, he⟩ | ⟨h, he⟩ | ⟨h, he⟩ | ⟨h, he⟩ |
    ⟨h, hmr, he⟩ | ⟨cm, h, hmr, he⟩ | ⟨h, he⟩
  case _ => left; rw [he]
  case _ => left; rw [he]
  case _ => left; rw [he]
  case _ => left; rw [he]
  case _ => left; rw [he]
  case _ => left; rw [he]
  case _ => left; rw [he]
  case _ => left; rw [he]
  case _ => left; rw [he]
  case _ => left; rw [he]
  case _ => left; rw [he]
  case _ => left; rw [he]
  case _ => left; rw [he]
  case _ =>
    rw [he]
    apply lockSection_write_cases
    intro hx0
    right
    simp only [Bool.and_eq_true, Bool.not_eq_true'] at h
    exact ⟨h.2, by simp [resyncSt_output_enabled, tickSg, h.1]⟩
  case _ =>
    rw [he]
    apply lockSection_write_cases
    intro hx0
    left
    simpa [tickSg] using hx0

/-- A tick that starts enabled, with the marker present and the lock still
running, issues no controller write and decrements the lock by at most one
(it leaves the lock untouched only when the tick dies early). -/
theorem tick_locked (i : Input) (s : St)
    (ho : s.output_enabled = true)
    (hl : 0 < s.mode_change_lock_timer) :
    (tick i s).modeWrite = none ∧
    s.mode_change_lock_timer - 1 ≤ (tick i s).st.mode_change_lock_timer := by
  rcases tick_cases i s with ⟨h, he⟩ | ⟨h, he⟩ | ⟨h, he⟩ | ⟨h, he⟩ | ⟨h, he⟩ |
    ⟨h, he⟩ | ⟨h, he⟩ | ⟨h, he⟩ | ⟨h, he⟩ | ⟨h, he⟩ | ⟨h, he⟩ | ⟨h, he⟩ |
    ⟨h, hmr2, he⟩ | ⟨cm, h, hmr2, he⟩ | ⟨h, he⟩
  all_goals try (refine ⟨by rw [he], ?_⟩
                 rw [he]
                 simp only [tickSg, tickSf, tickSe, tickSc, tickSb,
                   enablePhase_mode_change_lock_timer,
                   chgStabPhase_mode_change_lock_timer,
                   chgTimPhase_mode_change_lock_timer,
                   chgDebPhase_mode_change_lock_timer,
                   feedStabPhase_mode_change_lock_timer,
                   feedTimPhase_mode_change_lock_timer,
                   feedDebPhase_mode_change_lock_timer]
                 omega)
  · simp [ho] at h
  · rw [he]
    have hx : 0 < (tickSg i s).mode_change_lock_timer := by
      simpa [tickSg, tickSf, tickSe, tickSc, tickSb] using hl
    have hll := lockSection_locked i (tickFc i s) (tickCc i s) (tickM i s)
      (tickSg i s) hx
    refine ⟨hll.1, ?_⟩
    rw [hll.2]
    have hy : (tickSg i s).mode_change_lock_timer = s.mode_change_lock_timer := by
      simp [tickSg, tickSf, tickSe, tickSc, tickSb]
    rw [hy]

/-- A tick whose essential reads and writes all succeed never terminates the
process, whatever the optional sensor readings hold. -/
theorem tick_no_fatal (i : Input) (s : St)
    (hgrid : i.gridPower.isSome = true) (ht : mainTelOk i.tel = true)
    (hmr : i.modeRead.isSome = true) (hsoc : i.batterySoc.isSome = true)
    (hsv : i.setModeOk = true) :
    (tick i s).fatal = none := by
  simp only [mainTelOk, Bool.and_eq_true, Bool.not_eq_true'] at ht
  obtain ⟨⟨⟨⟨⟨⟨⟨⟨⟨⟨⟨⟨⟨⟨⟨t1, t2⟩, t3⟩, t4⟩, t5⟩, t6⟩, t7⟩, t8⟩, t9⟩, t10⟩,
    t11⟩, t12⟩, t13⟩, t14⟩, t15⟩, t16⟩ := ht
  rcases tick_cases i s with ⟨h, he⟩ | ⟨h, he⟩ | ⟨h, he⟩ | ⟨h, he⟩ | ⟨h, he⟩ |
    ⟨h, he⟩ | ⟨h, he⟩ | ⟨h, he⟩ | ⟨h, he⟩ | ⟨h, he⟩ | ⟨h, he⟩ | ⟨h, he⟩ |
    ⟨h, hmr2, he⟩ | ⟨cm, h, hmr2, he⟩ | ⟨h, he⟩
  all_goals try simp_all
  all_goals exact lockSection_fatal _ _ _ _ _ hsoc t15 t16 hsv

/-- A completed tick updates each channel stabilizer exactly by `stabStep`
applied to that tick's raw candidate. -/
theorem tick_stab (i : Input) (s : St) (hf : (tick i s).fatal = none) :
    feedStab (tick i s).st =
      stabStep ((tick i s).feedInCand.getD false) (feedStab s) ∧
    chargeStab (tick i s).st =
      stabStep ((tick i s).chargeCand.getD false) (chargeStab s) := by
  rcases tick_cases i s with ⟨h, he⟩ | ⟨h, he⟩ | ⟨h, he⟩ | ⟨h, he⟩ | ⟨h, he⟩ |
    ⟨h, he⟩ | ⟨h, he⟩ | ⟨h, he⟩ | ⟨h, he⟩ | ⟨h, he⟩ | ⟨h, he⟩ | ⟨h, he⟩ |
    ⟨h, hmr2, he⟩ | ⟨cm, h, hmr2, he⟩ | ⟨h, he⟩
  all_goals try (rw [he] at hf; exact absurd hf (by simp))
  all_goals rw [he]
  all_goals constructor
  all_goals simp [feedStab, chargeStab, tickSg, tickSf, tickSe, tickSc, tickSb,
    resyncSt, enablePhase]


/-- Bounds of the debounce update: it stays within `[0, THRESHOLD_DEBOUNCE]`. -/
theorem debounceStep_bounds (e : Bool) (d : Int) (h1 : 0 ≤ d)
    (h2 : d ≤ THRESHOLD_DEBOUNCE) :
    0 ≤ debounceStep e d ∧ debounceStep e d ≤ THRESHOLD_DEBOUNCE := by
  simp only [debounceStep, THRESHOLD_DEBOUNCE] at *
  split_ifs <;> omega

/-- Bounds of the timeout update: it stays within `[0, ceiling]`. -/
theorem timeoutStep_bounds (c d t : Int) (hc : 0 ≤ c) (h1 : 0 ≤ t)
    (h2 : t ≤ c) : 0 ≤ timeoutStep c d t ∧ timeoutStep c d t ≤ c := by
  simp only [timeoutStep] at *
  split_ifs <;> omega

/-- Exact behaviour of the timeout update, as a function of the updated
debounce counter (source lines 204-207 and 262-265). -/
theorem timeoutStep_spec (c d t : Int) :
    (d = 0 → timeoutStep c d t = c) ∧
    (d ≠ 0 → (0 < t → timeoutStep c d t = t - 1) ∧
             (t ≤ 0 → timeoutStep c d t = t)) := by
  simp only [timeoutStep]
  split_ifs <;> constructor <;> intros <;> first | rfl | omega

/-- Bounds of the stabilizer settle countdown: it stays within
`[0, STABLE_TIMER]`. -/
theorem stabStep_timer (cb : Bool) (u : Stab) (h1 : 0 ≤ u.timer)
    (h2 : u.timer ≤ STABLE_TIMER) :
    0 ≤ (stabStep cb u).timer ∧ (stabStep cb u).timer ≤ STABLE_TIMER := by
  simp only [stabStep, STABLE_TIMER] at *
  split_ifs <;> simp <;> omega

/-- The feed-in debounce phase preserves the counter bounds. -/
theorem StInv_feedDebPhase (r : Int) (s : St) (h : StInv s) :
    StInv (feedDebPhase r s) := by
  obtain ⟨a1, a2, a3, a4, a5, a6, a7, a8, a9, a10, a11, a12⟩ := h
  have hb := debounceStep_bounds (decide (r > FEED_IN_DISABLE_THRESHOLD))
    s.grid_import_debounce a1 a2
  exact ⟨hb.1, hb.2, a3, a4, a5, a6, a7, a8, a9, a10, a11, a12⟩

/-- The feed-in timeout phase preserves the counter bounds. -/
theorem StInv_feedTimPhase (s : St) (h : StInv s) : StInv (feedTimPhase s) := by
  obtain ⟨a1, a2, a3, a4, a5, a6, a7, a8, a9, a10, a11, a12⟩ := h
  have hb := timeoutStep_bounds FEED_IN_TIMEOUT s.grid_import_debounce
    s.grid_import_timer (by norm_num [FEED_IN_TIMEOUT]) a3 a4
  exact ⟨a1, a2, hb.1, hb.2, a5, a6, a7, a8, a9, a10, a11, a12⟩

/-- The feed-in stabilizer phase preserves the counter bounds. -/
theorem StInv_feedStabPhase (c : Bool) (s : St) (h : StInv s) :
    StInv (feedStabPhase c s) := by
  obtain ⟨a1, a2, a3, a4, a5, a6, a7, a8, a9, a10, a11, a12⟩ := h
  have hb := stabStep_timer c (feedStab s) a9 a10
  exact ⟨a1, a2, a3, a4, a5, a6, a7, a8, hb.1, hb.2, a11, a12⟩

/-- The charge debounce phase preserves the counter bounds. -/
theorem StInv_chgDebPhase (r : Int) (s : St) (h : StInv s) :
    StInv (chgDebPhase r s) := by
  obtain ⟨a1, a2, a3, a4, a5, a6, a7, a8, a9, a10, a11, a12⟩ := h
  have hb := debounceStep_bounds (decide (r < CHARGE_DISABLE_THRESHOLD))
    s.grid_export_debounce a5 a6
  exact ⟨a1, a2, a3, a4, hb.1, hb.2, a7, a8, a9, a10, a11, a12⟩

/-- The charge timeout phase preserves the counter bounds. -/
theorem StInv_chgTimPhase (s : St) (h : StInv s) : StInv (chgTimPhase s) := by
  obtain ⟨a1, a2, a3, a4, a5, a6, a7, a8, a9, a10, a11, a12⟩ := h
  have hb := timeoutStep_bounds CHARGE_TIMEOUT s.grid_export_debounce
    s.grid_export_timer (by norm_num [CHARGE_TIMEOUT]) a7 a8
  exact ⟨a1, a2, a3, a4, a5, a6, hb.1, hb.2, a9, a10, a11, a12⟩

/-- The charge stabilizer phase preserves the counter bounds. -/
theorem StInv_chgStabPhase (c : Bool) (s : St) (h : StInv s) :
    StInv (chgStabPhase c s) := by
  obtain ⟨a1, a2, a3, a4, a5, a6, a7, a8, a9, a10, a11, a12⟩ := h
  have hb := stabStep_timer c (chargeStab s) a11 a12
  exact ⟨a1, a2, a3, a4, a5, a6, a7, a8, a9, a10, hb.1, hb.2⟩

/-- Polling the enable switch preserves the counter bounds. -/
theorem StInv_enablePhase (i : Input) (s : St) (h : StInv s) :
    StInv (enablePhase i s) := h

/-- Resynchronisation preserves the counter bounds. -/
theorem StInv_resyncSt (cm : Int) (s : St) (h : StInv s) :
    StInv (resyncSt cm s) := h

/-- The mode-lock section preserves the counter bounds. -/
theorem StInv_lockSection (i : Input) (f c : Bool) (m : Int) (x : St)
    (h : StInv x) : StInv (lockSection i f c m x).st := by
  unfold StInv
  simp only [lockSection_st_grid_import_debounce, lockSection_st_grid_import_timer,
    lockSection_st_grid_export_debounce, lockSection_st_grid_export_timer,
    lockSection_st_feed_in_stable_timer, lockSection_st_charge_stable_timer]
  exact h

/-- Counter bounds after the feed-in debounce/timeout phases. -/
theorem StInv_tickSb (i : Input) (s : St) (h : StInv s) : StInv (tickSb i s) :=
  StInv_feedTimPhase _ (StInv_feedDebPhase _ _ h)

/-- Counter bounds after the feed-in stabilizer phase. -/
theorem StInv_tickSc (i : Input) (s : St) (h : StInv s) : StInv (tickSc i s) :=
  StInv_feedStabPhase _ _ (StInv_tickSb i s h)

/-- Counter bounds after the charge debounce/timeout phases. -/
theorem StInv_tickSe (i : Input) (s : St) (h : StInv s) : StInv (tickSe i s) :=
  StInv_chgTimPhase _ (StInv_chgDebPhase _ _ (StInv_tickSc i s h))

/-- Counter bounds after the charge stabilizer phase. -/
theorem StInv_tickSf (i : Input) (s : St) (h : StInv s) : StInv (tickSf i s) :=
  StInv_chgStabPhase _ _ (StInv_tickSe i s h)

/-- Counter bounds after the enable-switch polling. -/
theorem StInv_tickSg (i : Input) (s : St) (h : StInv s) : StInv (tickSg i s) :=
  StInv_enablePhase _ _ (StInv_tickSf i s h)

/-- One tick preserves the counter bounds, however it ends. -/
theorem tick_StInv (i : Input) (s : St) (h : StInv s) : StInv (tick i s).st := by
  rcases tick_cases i s with ⟨hc, he⟩ | ⟨hc, he⟩ | ⟨hc, he⟩ | ⟨hc, he⟩ | ⟨hc, he⟩ |
    ⟨hc, he⟩ | ⟨hc, he⟩ | ⟨hc, he⟩ | ⟨hc, he⟩ | ⟨hc, he⟩ | ⟨hc, he⟩ | ⟨hc, he⟩ |
    ⟨hc, hmr2, he⟩ | ⟨cm, hc, hmr2, he⟩ | ⟨hc, he⟩
  all_goals rw [he]
  · exact h
  · exact h
  · exact h
  · exact StInv_feedDebPhase _ _ h
  · exact StInv_tickSb i s h
  · exact StInv_tickSb i s h
  · exact StInv_tickSc i s h
  · exact StInv_chgDebPhase _ _ (StInv_tickSc i s h)
  · exact StInv_tickSe i s h
  · exact StInv_tickSe i s h
  · exact StInv_tickSf i s h
  · exact StInv_tickSf i s h
  · exact StInv_tickSg i s h
  · exact StInv_lockSection _ _ _ _ _ (StInv_resyncSt _ _ (StInv_tickSg i s h))
  · exact StInv_lockSection _ _ _ _ _ (StInv_tickSg i s h)


/-- While the lock outlasts position `t` and the marker file stays present up
to it, position `t` of the write trace is write-free. -/
theorem run_locked (l : List Input) (s : St) (t : Nat)
    (ho : s.output_enabled = true)
    (hm : ∀ j ∈ l.take (t + 1), j.markerPresent = true)
    (hl : (t : Int) < s.mode_change_lock_timer) :
    (writeTrace s l).getD t false = false := by
  induction l generalizing s t with
  | nil => simp [writeTrace]
  | cons i r ih =>
    have hmi : i.markerPresent = true := by
      apply hm i
      rw [List.take_succ_cons]
      exact List.mem_cons_self i _
    cases t with
    | zero =>
      have h0 : 0 < s.mode_change_lock_timer := by simpa using hl
      simp only [writeTrace, List.getD_cons_zero]
      simp [(tick_locked i s ho h0).1]
    | succ t =>
      have h0 : 0 < s.mode_change_lock_timer := by push_cast at hl; omega
      have hstep := (tick_locked i s ho h0).2
      simp only [writeTrace, List.getD_cons_succ]
      apply ih (tick i s).st t (tick_output_enabled i s ho hmi)
      · intro j hj
        apply hm j
        rw [List.take_succ_cons]
        exact List.mem_cons_of_mem i hj
      · push_cast at hl ⊢
        omega

/-- After a tick that wrote, no further write can occur for `LOCK_TIME`
positions, provided output stays enabled and the marker file stays present. -/
theorem run_write_gap (l : List Input) (s : St) (t u : Nat)
    (ho : s.output_enabled = true)
    (hm : ∀ j ∈ l, j.markerPresent = true)
    (htu : t < u) (hu : (u : Int) ≤ (t : Int) + LOCK_TIME)
    (hw : (writeTrace s l).getD t false = true) :
    (writeTrace s l).getD u false = false := by
  induction l generalizing s t u with
  | nil => simp [writeTrace] at hw
  | cons i r ih =>
    have hmi : i.markerPresent = true := hm i (List.mem_cons_self i r)
    cases t with
    | zero =>
      simp only [writeTrace, List.getD_cons_zero] at hw
      rcases tick_write_cases i s with hnone | ⟨hlock, hres⟩
      · rw [hnone] at hw; simp at hw
      obtain ⟨u', rfl⟩ : ∃ u', u = u' + 1 := ⟨u - 1, by omega⟩
      simp only [writeTrace, List.getD_cons_succ]
      apply run_locked r (tick i s).st u' (tick_output_enabled i s ho hmi)
      · intro j hj
        exact hm j (List.mem_cons_of_mem _ (List.take_subset _ _ hj))
      · rw [hlock]
        simp only [LOCK_TIME] at hu ⊢
        push_cast at hu ⊢
        omega
    | succ t =>
      obtain ⟨u', rfl⟩ : ∃ u', u = u' + 1 := ⟨u - 1, by omega⟩
      simp only [writeTrace, List.getD_cons_succ] at hw ⊢
      apply ih (tick i s).st t u' (tick_output_enabled i s ho hmi)
        (fun j hj => hm j (List.mem_cons_of_mem _ hj)) (by omega)
        (by push_cast at hu ⊢; omega) hw

/-- A tick that leaves the state unchanged cannot have written: a write
re-arms the lock, and the commit required the lock to be spent. -/
theorem tick_fix_no_write (i : Input) (s : St) (hfix : (tick i s).st = s) :
    (tick i s).modeWrite = none := by
  rcases tick_write_cases i s with hnone | ⟨hlock, hres⟩
  · exact hnone
  rw [hfix] at hlock
  rcases hres with hle | ⟨hof, hot⟩
  · rw [hlock] at hle
    simp [LOCK_TIME] at hle
  · rw [hfix] at hot
    rw [hot] at hof
    exact absurd hof (by simp)


/-- Splitting a stabilizer run over an append. -/
theorem stabRun_append (u : Stab) (l1 l2 : List Bool) :
    stabRun u (l1 ++ l2) = stabRun (stabRun u l1) l2 := by
  induction l1 generalizing u with
  | nil => rfl
  | cons c r ih => simp [stabRun, ih]

@[simp] theorem Stab_mk_unstable (a b : Bool) (t : Int) :
    (Stab.mk a b t).unstable = a := rfl

@[simp] theorem Stab_mk_stable (a b : Bool) (t : Int) :
    (Stab.mk a b t).stable = b := rfl

@[simp] theorem Stab_mk_timer (a b : Bool) (t : Int) :
    (Stab.mk a b t).timer = t := rfl

/-- STABLE_TIMER is non-negative. -/
theorem STABLE_TIMER_nonneg : (0 : Int) ≤ STABLE_TIMER := by
  norm_num [STABLE_TIMER]

/-- One stabilizer step preserves the run invariant. -/
theorem stabInv_step (l : List Bool) (c : Bool) (u : Stab)
    (h : stabInv l u) : stabInv (l ++ [c]) (stabStep c u) := by
  obtain ⟨h0, h1, h2, h3⟩ := h
  unfold stabStep
  split_ifs with hne hpos
  · refine ⟨?_, ?_, ?_, ?_⟩
    · simp only [Stab_mk_timer]
      exact STABLE_TIMER_nonneg
    · simp only [Stab_mk_timer]
      exact le_refl _
    · simp only [Stab_mk_timer, List.length_append, List.length_singleton]
      push_cast
      omega
    · intro j hj1 hj2
      exfalso
      simp only [Stab_mk_timer, List.length_append, List.length_singleton] at hj1 hj2
      push_cast at hj1
      omega
  · have hcu : c = u.unstable := by
      by_contra hcon
      exact hne hcon
    refine ⟨?_, ?_, ?_, ?_⟩
    · simp only [Stab_mk_timer]
      omega
    · simp only [Stab_mk_timer]
      omega
    · simp only [Stab_mk_timer, List.length_append, List.length_singleton]
      push_cast
      omega
    · intro j hj1 hj2
      simp only [Stab_mk_timer, Stab_mk_unstable, List.length_append,
        List.length_singleton] at hj1 hj2 ⊢
      by_cases hjl : j < l.length
      · rw [List.getD_append _ _ _ _ hjl]
        apply h3 j ?_ hjl
        push_cast at hj1 ⊢
        omega
      · have hje : j = l.length := by omega
        rw [List.getD_append_right _ _ _ _ (by omega)]
        simp [hje, hcu]
  · have hcu : c = u.unstable := by
      by_contra hcon
      exact hne hcon
    refine ⟨?_, ?_, ?_, ?_⟩
    · simp only [Stab_mk_timer]
      exact h0
    · simp only [Stab_mk_timer]
      exact h1
    · simp only [Stab_mk_timer, List.length_append, List.length_singleton]
      push_cast
      omega
    · intro j hj1 hj2
      simp only [Stab_mk_timer, Stab_mk_unstable, List.length_append,
        List.length_singleton] at hj1 hj2 ⊢
      by_cases hjl : j < l.length
      · rw [List.getD_append _ _ _ _ hjl]
        apply h3 j ?_ hjl
        push_cast at hj1 ⊢
        omega
      · have hje : j = l.length := by omega
        rw [List.getD_append_right _ _ _ _ (by omega)]
        simp [hje, hcu]

/-- The run invariant holds after any stabilizer run that starts with a full
settle countdown. -/
theorem stabInv_run (l : List Bool) (u0 v0 : Bool) :
    stabInv l (stabRun ⟨u0, v0, STABLE_TIMER⟩ l) := by
  induction l using List.reverseRecOn with
  | nil =>
    refine ⟨?_, ?_, ?_, ?_⟩ <;> simp [stabRun, stabInv, STABLE_TIMER]
  | append_singleton r c ih =>
    rw [stabRun_append]
    exact stabInv_step r c _ ih

/-- If a stabilizer step changes the committed value after an arbitrary run,
then the run was at least `STABLE_TIMER` long, its last `STABLE_TIMER` inputs
all equal the newly committed value, and so does the current input. -/
theorem stab_change (l : List Bool) (c : Bool) (u0 v0 : Bool)
    (h : (stabStep c (stabRun ⟨u0, v0, STABLE_TIMER⟩ l)).stable ≠
         (stabRun ⟨u0, v0, STABLE_TIMER⟩ l).stable) :
    STABLE_TIMER ≤ (l.length : Int) ∧
    (stabStep c (stabRun ⟨u0, v0, STABLE_TIMER⟩ l)).stable =
      (stabRun ⟨u0, v0, STABLE_TIMER⟩ l).unstable ∧
    c = (stabRun ⟨u0, v0, STABLE_TIMER⟩ l).unstable ∧
    ∀ j : Nat, (l.length : Int) - STABLE_TIMER ≤ (j : Int) → j < l.length →
      l.getD j false = (stabRun ⟨u0, v0, STABLE_TIMER⟩ l).unstable := by
  obtain ⟨h0, h1, h2, h3⟩ := stabInv_run l u0 v0
  unfold stabStep at h ⊢
  split_ifs at h ⊢ with hne hpos
  · exact absurd rfl h
  · exact absurd rfl h
  · have hcu : c = (stabRun ⟨u0, v0, STABLE_TIMER⟩ l).unstable := by
      by_contra hcon
      exact hne hcon
    have ht0 : (stabRun ⟨u0, v0, STABLE_TIMER⟩ l).timer = 0 := by omega
    rw [ht0] at h2 h3
    refine ⟨by simpa using h2, rfl, hcu, ?_⟩
    intro j hj1 hj2
    apply h3 j ?_ hj2
    omega


/-- The candidate traces are as long as the input list. -/
theorem feedCandTrace_length (s : St) (l : List Input) :
    (feedCandTrace s l).length = l.length := by
  induction l generalizing s with
  | nil => rfl
  | cons i r ih => simp [feedCandTrace, ih]

/-- The charge candidate trace is as long as the input list. -/
theorem chargeCandTrace_length (s : St) (l : List Input) :
    (chargeCandTrace s l).length = l.length := by
  induction l generalizing s with
  | nil => rfl
  | cons i r ih => simp [chargeCandTrace, ih]

/-- Over a fatal-free run, each stabilizer of the engine evolves exactly as
the stand-alone stabilizer component driven by that channel's candidate
trace. -/
theorem sysRun_stab (l : List Input) (s : St) (h : okRun s l = true) :
    feedStab (sysRun s l) = stabRun (feedStab s) (feedCandTrace s l) ∧
    chargeStab (sysRun s l) = stabRun (chargeStab s) (chargeCandTrace s l) := by
  induction l generalizing s with
  | nil => exact ⟨rfl, rfl⟩
  | cons i r ih =>
    simp only [okRun, Bool.and_eq_true, decide_eq_true_eq] at h
    have hstab := tick_stab i s h.1
    have ihr := ih (tick i s).st h.2
    constructor
    · simp only [sysRun, feedCandTrace, stabRun]
      rw [← hstab.1]
      exact ihr.1
    · simp only [sysRun, chargeCandTrace, stabRun]
      rw [← hstab.2]
      exact ihr.2


/-- Claim C1: in every execution from process start in which the enable
marker file is present on every tick, no window of `LOCK_TIME` consecutive
ticks sees two controller mode writes: two write positions are always more
than `LOCK_TIME` apart. -/
theorem c1_mode_lock_window (m0 : Int) (l : List Input) (t u : Nat)
    (hm : ∀ j ∈ l, j.markerPresent = true) (htu : t < u)
    (hu : (u : Int) ≤ (t : Int) + LOCK_TIME) :
    ¬((writeTrace (initSt m0) l).getD t false = true ∧
      (writeTrace (initSt m0) l).getD u false = true) := by
  rintro ⟨h1, h2⟩
  have h3 := run_write_gap l (initSt m0) t u rfl hm htu hu h1
  rw [h3] at h2
  exact absurd h2 (by simp)

theorem c1_mode_lock_window_witness :
    ¬((writeTrace (initSt 3) (List.replicate 2 inpBase)).getD 0 false = true ∧
      (writeTrace (initSt 3) (List.replicate 2 inpBase)).getD 1 false = true) :=
  c1_mode_lock_window 3 (List.replicate 2 inpBase) 0 1 (by decide) (by decide)
    (by decide)

/-- Claim C10: because `output_enabled` starts `true` and the lock starts at
`LOCK_TIME`, no controller mode write can occur during the first `LOCK_TIME`
ticks after process start whenever the marker file is present on each of
those ticks. -/
theorem c10_startup_lock (m0 : Int) (l : List Input) (t : Nat)
    (hm : ∀ j ∈ l.take LOCK_TIME.toNat, j.markerPresent = true)
    (ht : (t : Int) < LOCK_TIME) :
    (writeTrace (initSt m0) l).getD t false = false := by
  apply run_locked l (initSt m0) t rfl ?_ ht
  intro j hj
  apply hm
  have hle : t + 1 ≤ LOCK_TIME.toNat := by
    simp only [LOCK_TIME] at ht ⊢
    omega
  exact (List.take_isPrefix_take.mpr (Or.inl hle)).subset hj

theorem c10_startup_lock_witness :
    (writeTrace (initSt 3) (List.replicate 2 inpBase)).getD 1 false = false :=
  c10_startup_lock 3 (List.replicate 2 inpBase) 1 (by decide) (by decide)

/-- Claim C9: a state that is a fixed point of the tick function under a
given measurement snapshot yields no controller mode writes however often
that same snapshot is replayed. -/
theorem c9_settled_idempotent (i : Input) (s : St) (n : Nat)
    (hfix : (tick i s).st = s) :
    writeTrace s (List.replicate n i) = List.replicate n false := by
  induction n with
  | zero => rfl
  | succ n ih =>
    have hnw := tick_fix_no_write i s hfix
    simp only [List.replicate_succ, writeTrace, hnw, hfix, ih,
      Option.isSome_none]

theorem c9_settled_idempotent_witness :
    writeTrace sFix (List.replicate 3 inpBase) = List.replicate 3 false :=
  c9_settled_idempotent inpBase sFix 3 (by decide)

/-- Claim C7: every state reachable from the initial state satisfies the
counter bounds (debounce within `[0, THRESHOLD_DEBOUNCE]`, timeouts within
`[0, ceiling]`, settle countdowns within `[0, STABLE_TIMER]`), and every
tick preserves those bounds. -/
theorem c7_counter_invariants :
    (∀ (m0 : Int) (l : List Input), StInv (sysRun (initSt m0) l)) ∧
    (∀ (i : Input) (s : St), StInv s → StInv (tick i s).st) := by
  have hinit : ∀ m0 : Int, StInv (initSt m0) := by
    intro m0
    refine ⟨?_, ?_, ?_, ?_, ?_, ?_, ?_, ?_, ?_, ?_, ?_, ?_⟩ <;>
      norm_num [initSt, THRESHOLD_DEBOUNCE, FEED_IN_TIMEOUT, CHARGE_TIMEOUT,
        STABLE_TIMER]
  have hrun : ∀ (l : List Input) (s : St), StInv s → StInv (sysRun s l) := by
    intro l
    induction l with
    | nil => exact fun s h => h
    | cons i r ih => exact fun s h => ih _ (tick_StInv i s h)
  exact ⟨fun m0 l => hrun l _ (hinit m0), tick_StInv⟩

theorem c7_counter_invariants_witness : StInv (tick inpBase (initSt 0)).st :=
  c7_counter_invariants.2 inpBase (initSt 0) (by decide)


/-- Claim C2 (one channel, generic form): if the stabilizer committed value
changes on the next tick after a fatal-free run, the run is at least
`STABLE_TIMER` long and the candidate trace is constant (equal to the new
committed value) on the `STABLE_TIMER` positions preceding the change. -/
theorem stab_change_of_run (tr : List Bool) (c : Bool)
    (hch : (stabStep c (stabRun ⟨false, false, STABLE_TIMER⟩ tr)).stable ≠
           (stabRun ⟨false, false, STABLE_TIMER⟩ tr).stable) :
    STABLE_TIMER ≤ (tr.length : Int) ∧
    ∀ j : Nat, (tr.length : Int) - STABLE_TIMER ≤ (j : Int) → j < tr.length →
      tr.getD j false =
        (stabStep c (stabRun ⟨false, false, STABLE_TIMER⟩ tr)).stable := by
  obtain ⟨hlen, hsteq, hcu, hwin⟩ := stab_change tr c false false hch
  refine ⟨hlen, ?_⟩
  intro j hj1 hj2
  rw [hsteq]
  exact hwin j hj1 hj2

/-- Claim C2: for each channel, over any fatal-free execution from the
initial state, the stable value changes on the next tick only if that
channel's raw candidate held one constant value — the newly committed one —
for the `STABLE_TIMER` ticks immediately preceding the change. -/
theorem c2_stabilizer_window (m0 : Int) (l : List Input) (i : Input)
    (hok : okRun (initSt m0) l = true)
    (hf : (tick i (sysRun (initSt m0) l)).fatal = none) :
    ((tick i (sysRun (initSt m0) l)).st.feed_in_stable ≠
        (sysRun (initSt m0) l).feed_in_stable →
      STABLE_TIMER ≤ (l.length : Int) ∧
      ∀ j : Nat, (l.length : Int) - STABLE_TIMER ≤ (j : Int) → j < l.length →
        (feedCandTrace (initSt m0) l).getD j false =
          (tick i (sysRun (initSt m0) l)).st.feed_in_stable) ∧
    ((tick i (sysRun (initSt m0) l)).st.charge_stable ≠
        (sysRun (initSt m0) l).charge_stable →
      STABLE_TIMER ≤ (l.length : Int) ∧
      ∀ j : Nat, (l.length : Int) - STABLE_TIMER ≤ (j : Int) → j < l.length →
        (chargeCandTrace (initSt m0) l).getD j false =
          (tick i (sysRun (initSt m0) l)).st.charge_stable) := by
  have hsim := sysRun_stab l (initSt m0) hok
  have hstep := tick_stab i (sysRun (initSt m0) l) hf
  have hA : stabRun ⟨false, false, STABLE_TIMER⟩ (feedCandTrace (initSt m0) l) =
      feedStab (sysRun (initSt m0) l) := hsim.1.symm
  have hA' : stabRun ⟨false, false, STABLE_TIMER⟩ (chargeCandTrace (initSt m0) l) =
      chargeStab (sysRun (initSt m0) l) := hsim.2.symm
  constructor
  · intro hch
    have hB : (tick i (sysRun (initSt m0) l)).st.feed_in_stable =
        (stabStep ((tick i (sysRun (initSt m0) l)).feedInCand.getD false)
          (stabRun ⟨false, false, STABLE_TIMER⟩
            (feedCandTrace (initSt m0) l))).stable := by
      rw [hA]
      exact congrArg Stab.stable hstep.1
    have hch' : (stabStep ((tick i (sysRun (initSt m0) l)).feedInCand.getD false)
        (stabRun ⟨false, false, STABLE_TIMER⟩ (feedCandTrace (initSt m0) l))).stable ≠
        (stabRun ⟨false, false, STABLE_TIMER⟩ (feedCandTrace (initSt m0) l)).stable := by
      rw [hA, ← hstep.1]
      exact hch
    obtain ⟨hlen, hwin⟩ := stab_change_of_run _ _ hch'
    rw [feedCandTrace_length] at hlen
    refine ⟨hlen, ?_⟩
    intro j hj1 hj2
    rw [hB]
    apply hwin j
    · rw [feedCandTrace_length]
      exact hj1
    · rw [feedCandTrace_length]
      exact hj2
  · intro hch
    have hB : (tick i (sysRun (initSt m0) l)).st.charge_stable =
        (stabStep ((tick i (sysRun (initSt m0) l)).chargeCand.getD false)
          (stabRun ⟨false, false, STABLE_TIMER⟩
            (chargeCandTrace (initSt m0) l))).stable := by
      rw [hA']
      exact congrArg Stab.stable hstep.2
    have hch' : (stabStep ((tick i (sysRun (initSt m0) l)).chargeCand.getD false)
        (stabRun ⟨false, false, STABLE_TIMER⟩ (chargeCandTrace (initSt m0) l))).stable ≠
        (stabRun ⟨false, false, STABLE_TIMER⟩ (chargeCandTrace (initSt m0) l)).stable := by
      rw [hA', ← hstep.2]
      exact hch
    obtain ⟨hlen, hwin⟩ := stab_change_of_run _ _ hch'
    rw [chargeCandTrace_length] at hlen
    refine ⟨hlen, ?_⟩
    intro j hj1 hj2
    rw [hB]
    apply hwin j
    · rw [chargeCandTrace_length]
      exact hj1
    · rw [chargeCandTrace_length]
      exact hj2


theorem c2_stabilizer_window_witness :
    ((tick inp150 (sysRun (initSt 4) (List.replicate 61 inp150))).st.feed_in_stable ≠
        (sysRun (initSt 4) (List.replicate 61 inp150)).feed_in_stable →
      STABLE_TIMER ≤ ((List.replicate 61 inp150).length : Int) ∧
      ∀ j : Nat,
        ((List.replicate 61 inp150).length : Int) - STABLE_TIMER ≤ (j : Int) →
        j < (List.replicate 61 inp150).length →
        (feedCandTrace (initSt 4) (List.replicate 61 inp150)).getD j false =
          (tick inp150 (sysRun (initSt 4) (List.replicate 61 inp150))).st.feed_in_stable) ∧
    ((tick inp150 (sysRun (initSt 4) (List.replicate 61 inp150))).st.charge_stable ≠
        (sysRun (initSt 4) (List.replicate 61 inp150)).charge_stable →
      STABLE_TIMER ≤ ((List.replicate 61 inp150).length : Int) ∧
      ∀ j : Nat,
        ((List.replicate 61 inp150).length : Int) - STABLE_TIMER ≤ (j : Int) →
        j < (List.replicate 61 inp150).length →
        (chargeCandTrace (initSt 4) (List.replicate 61 inp150)).getD j false =
          (tick inp150 (sysRun (initSt 4) (List.replicate 61 inp150))).st.charge_stable) :=
  c2_stabilizer_window 4 (List.replicate 61 inp150) inp150 (by decide) (by decide)


/-- Exact non-negativity of the timeout update. -/
theorem timeoutStep_full (c d t : Int) (hc : 0 ≤ c) :
    (d = 0 → timeoutStep c d t = c) ∧
    (d ≠ 0 → (0 < t → timeoutStep c d t = t - 1) ∧
             (t ≤ 0 → timeoutStep c d t = t)) ∧
    (0 ≤ t → 0 ≤ timeoutStep c d t) := by
  simp only [timeoutStep]
  split_ifs <;> refine ⟨?_, ?_, ?_⟩ <;> intros <;> first | rfl | omega

/-- Claim C6: on every completed tick, the raw feed-in candidate equals
`feed_in_allowed AND ((stable AND timeout-window-active) OR (NOT stable AND
residual above FEED_IN_THRESHOLD))`, the raw charge candidate is the
mirrored expression additionally conjoined with the PV inverter producing
(status 11 or 12), and a PV status of 3 forces the charge candidate false. -/
theorem c6_candidate_formulas (i : Input) (s : St)
    (hf : (tick i s).fatal = none) :
    (tick i s).feedInCand = some (feedInAllowedOf i &&
      ((s.feed_in_stable && decide ((tick i s).st.grid_import_timer > 0)) ||
       (!s.feed_in_stable && decide (residualOf i > FEED_IN_THRESHOLD)))) ∧
    (tick i s).chargeCand = some (chargeAllowedOf i &&
      ((s.charge_stable && decide ((tick i s).st.grid_export_timer > 0)) ||
       (!s.charge_stable && decide (residualOf i < CHARGE_THRESHOLD))) &&
      (decide (pvStatusOf i = 11) || decide (pvStatusOf i = 12))) ∧
    (pvStatusOf i = 3 → (tick i s).chargeCand = some false) := by
  rcases tick_cases i s with ⟨h, he⟩ | ⟨h, he⟩ | ⟨h, he⟩ | ⟨h, he⟩ | ⟨h, he⟩ |
    ⟨h, he⟩ | ⟨h, he⟩ | ⟨h, he⟩ | ⟨h, he⟩ | ⟨h, he⟩ | ⟨h, he⟩ | ⟨h, he⟩ |
    ⟨h, hmr2, he⟩ | ⟨cm, h, hmr2, he⟩ | ⟨h, he⟩
  all_goals try (rw [he] at hf; exact absurd hf (by simp))
  all_goals rw [he]
  all_goals refine ⟨?_, ?_, ?_⟩
  all_goals try (intro hpv)
  all_goals simp [tickFc, tickCc, feedCandOf, chargeCandOf, tickSg, tickSf,
    tickSe, tickSc, tickSb]
  all_goals simp [hpv]

theorem c6_candidate_formulas_witness :
    (tick inpBase (initSt 3)).feedInCand = some (feedInAllowedOf inpBase &&
      ((false && decide ((tick inpBase (initSt 3)).st.grid_import_timer > 0)) ||
       (!false && decide (residualOf inpBase > FEED_IN_THRESHOLD)))) ∧
    (tick inpBase (initSt 3)).chargeCand = some (chargeAllowedOf inpBase &&
      ((false && decide ((tick inpBase (initSt 3)).st.grid_export_timer > 0)) ||
       (!false && decide (residualOf inpBase < CHARGE_THRESHOLD))) &&
      (decide (pvStatusOf inpBase = 11) || decide (pvStatusOf inpBase = 12))) ∧
    (pvStatusOf inpBase = 3 → (tick inpBase (initSt 3)).chargeCand = some false) :=
  c6_candidate_formulas inpBase (initSt 3) (by decide)

/-- Claim C4 (amended): for each channel, the timeout counter is set to its
ceiling on every completed tick on which the updated debounce counter equals
zero — not only the first such tick; on ticks where the updated debounce
counter is non-zero it strictly decreases while positive and stays put at
zero; and it never becomes negative. -/
theorem c4_timeout_amended (i : Input) (s : St)
    (hf : (tick i s).fatal = none) :
    ((tick i s).st.grid_import_debounce = 0 →
      (tick i s).st.grid_import_timer = FEED_IN_TIMEOUT) ∧
    ((tick i s).st.grid_import_debounce ≠ 0 →
      (0 < s.grid_import_timer →
        (tick i s).st.grid_import_timer = s.grid_import_timer - 1) ∧
      (s.grid_import_timer ≤ 0 →
        (tick i s).st.grid_import_timer = s.grid_import_timer)) ∧
    (0 ≤ s.grid_import_timer → 0 ≤ (tick i s).st.grid_import_timer) ∧
    ((tick i s).st.grid_export_debounce = 0 →
      (tick i s).st.grid_export_timer = CHARGE_TIMEOUT) ∧
    ((tick i s).st.grid_export_debounce ≠ 0 →
      (0 < s.grid_export_timer →
        (tick i s).st.grid_export_timer = s.grid_export_timer - 1) ∧
      (s.grid_export_timer ≤ 0 →
        (tick i s).st.grid_export_timer = s.grid_export_timer)) ∧
    (0 ≤ s.grid_export_timer → 0 ≤ (tick i s).st.grid_export_timer) := by
  have hfd := timeoutStep_full FEED_IN_TIMEOUT
    (debounceStep (decide (residualOf i > FEED_IN_DISABLE_THRESHOLD))
      s.grid_import_debounce) s.grid_import_timer
    (by norm_num [FEED_IN_TIMEOUT])
  have hcd := timeoutStep_full CHARGE_TIMEOUT
    (debounceStep (decide (residualOf i < CHARGE_DISABLE_THRESHOLD))
      s.grid_export_debounce) s.grid_export_timer
    (by norm_num [CHARGE_TIMEOUT])
  rcases tick_cases i s with ⟨h, he⟩ | ⟨h, he⟩ | ⟨h, he⟩ | ⟨h, he⟩ | ⟨h, he⟩ |
    ⟨h, he⟩ | ⟨h, he⟩ | ⟨h, he⟩ | ⟨h, he⟩ | ⟨h, he⟩ | ⟨h, he⟩ | ⟨h, he⟩ |
    ⟨h, hmr2, he⟩ | ⟨cm, h, hmr2, he⟩ | ⟨h, he⟩
  all_goals try (rw [he] at hf; exact absurd hf (by simp))
  all_goals rw [he]
  all_goals simp only [lockSection_st_grid_import_debounce,
    lockSection_st_grid_import_timer, lockSection_st_grid_export_debounce,
    lockSection_st_grid_export_timer, resyncSt_grid_import_debounce,
    resyncSt_grid_import_timer, resyncSt_grid_export_debounce,
    resyncSt_grid_export_timer, enablePhase_grid_import_debounce,
    enablePhase_grid_import_timer, enablePhase_grid_export_debounce,
    enablePhase_grid_export_timer, tickSg, tickSf, tickSe, tickSc, tickSb,
    chgStabPhase_grid_import_debounce, chgStabPhase_grid_import_timer,
    chgStabPhase_grid_export_debounce, chgStabPhase_grid_export_timer,
    chgTimPhase_grid_import_debounce, chgTimPhase_grid_import_timer,
    chgTimPhase_grid_export_debounce, chgTimPhase_grid_export_timer,
    chgDebPhase_grid_import_debounce, chgDebPhase_grid_import_timer,
    chgDebPhase_grid_export_debounce, chgDebPhase_grid_export_timer,
    feedStabPhase_grid_import_debounce, feedStabPhase_grid_import_timer,
    feedStabPhase_grid_export_debounce, feedStabPhase_grid_export_timer,
    feedTimPhase_grid_import_debounce, feedTimPhase_grid_import_timer,
    feedTimPhase_grid_export_debounce, feedTimPhase_grid_export_timer,
    feedDebPhase_grid_import_debounce, feedDebPhase_grid_import_timer,
    feedDebPhase_grid_export_debounce, feedDebPhase_grid_export_timer]
  all_goals exact ⟨hfd.1, hfd.2.1, hfd.2.2, hcd.1, hcd.2.1, hcd.2.2⟩

theorem c4_timeout_amended_witness :
    ((tick inpBase (initSt 3)).st.grid_import_debounce = 0 →
      (tick inpBase (initSt 3)).st.grid_import_timer = FEED_IN_TIMEOUT) ∧
    ((tick inpBase (initSt 3)).st.grid_import_debounce ≠ 0 →
      (0 < (initSt 3).grid_import_timer →
        (tick inpBase (initSt 3)).st.grid_import_timer =
          (initSt 3).grid_import_timer - 1) ∧
      ((initSt 3).grid_import_timer ≤ 0 →
        (tick inpBase (initSt 3)).st.grid_import_timer =
          (initSt 3).grid_import_timer)) ∧
    (0 ≤ (initSt 3).grid_import_timer →
      0 ≤ (tick inpBase (initSt 3)).st.grid_import_timer) ∧
    ((tick inpBase (initSt 3)).st.grid_export_debounce = 0 →
      (tick inpBase (initSt 3)).st.grid_export_timer = CHARGE_TIMEOUT) ∧
    ((tick inpBase (initSt 3)).st.grid_export_debounce ≠ 0 →
      (0 < (initSt 3).grid_export_timer →
        (tick inpBase (initSt 3)).st.grid_export_timer =
          (initSt 3).grid_export_timer - 1) ∧
      ((initSt 3).grid_export_timer ≤ 0 →
        (tick inpBase (initSt 3)).st.grid_export_timer =
          (initSt 3).grid_export_timer)) ∧
    (0 ≤ (initSt 3).grid_export_timer →
      0 ≤ (tick inpBase (initSt 3)).st.grid_export_timer) :=
  c4_timeout_amended inpBase (initSt 3) (by decide)

theorem c4_counterexample :
    (sysRun (initSt 4) (List.replicate 9 inp150)).grid_import_debounce = 1 ∧
    (sysRun (initSt 4) (List.replicate 10 inp150)).grid_import_debounce = 0 ∧
    (sysRun (initSt 4) (List.replicate 10 inp150)).grid_import_timer =
      FEED_IN_TIMEOUT ∧
    0 < (sysRun (initSt 4) (List.replicate 10 inp150)).grid_import_timer ∧
    (sysRun (initSt 4) (List.replicate 11 inp150)).grid_import_timer =
      FEED_IN_TIMEOUT := by decide


/-- In an unlocked, output-enabled section with a differing target, a
non-fatal outcome forces the commit: the write was issued, the mode taken
over and the lock re-armed. -/
theorem lockSection_commit_of_ok (i : Input) (f c : Bool) (m : Int) (x : St)
    (hl : ¬0 < x.mode_change_lock_timer) (hne : x.mode_current ≠ m)
    (ho : x.output_enabled = true)
    (hf : (lockSection i f c m x).fatal = none) :
    (lockSection i f c m x).modeWrite = some m ∧
    (lockSection i f c m x).st.mode_current = m ∧
    (lockSection i f c m x).st.mode_change_lock_timer = LOCK_TIME := by
  unfold lockSection finishTick at *
  repeat' split
  all_goals simp_all

/-- Claim C3 (amended): on a false-to-true enable transition with the
controller mode readable, the tick re-reads the controller mode into
`mode_current`, clears the lock, and re-enables output; the resync itself
emits no write, but because the lock is cleared the normal commit logic runs
the same tick: if the selected target equals the re-read mode nothing is
written and the lock stays 0, while a differing target is committed and
written to the controller immediately. -/
theorem c3_resync_amended (i : Input) (s : St) (cm : Int)
    (ho : s.output_enabled = false) (hm : i.markerPresent = true)
    (hmr : i.modeRead = some cm) (hf : (tick i s).fatal = none) :
    (tick i s).st.output_enabled = true ∧
    ∃ m, (tick i s).modeSel = some m ∧
      (m = cm → (tick i s).modeWrite = none ∧
        (tick i s).st.mode_current = cm ∧
        (tick i s).st.mode_change_lock_timer = 0) ∧
      (m ≠ cm → (tick i s).modeWrite = some m ∧
        (tick i s).st.mode_current = m ∧
        (tick i s).st.mode_change_lock_timer = LOCK_TIME) := by
  rcases tick_cases i s with ⟨h, he⟩ | ⟨h, he⟩ | ⟨h, he⟩ | ⟨h, he⟩ | ⟨h, he⟩ |
    ⟨h, he⟩ | ⟨h, he⟩ | ⟨h, he⟩ | ⟨h, he⟩ | ⟨h, he⟩ | ⟨h, he⟩ | ⟨h, he⟩ |
    ⟨h, hmr2, he⟩ | ⟨cm2, h, hmr2, he⟩ | ⟨h, he⟩
  all_goals try (rw [he] at hf; exact absurd hf (by simp))
  all_goals try (rw [ho, hm] at h; simp at h)
  rw [hmr] at hmr2
  have hcm : cm = cm2 := by simpa using hmr2
  subst hcm
  rw [he] at hf ⊢
  constructor
  · simp [tickSg, hm]
  refine ⟨tickM i s, by simp, ?_, ?_⟩
  · intro hemc
    have hnc := lockSection_nochange i (tickFc i s) (tickCc i s) (tickM i s)
      (resyncSt cm (tickSg i s)) (by simp) (by simp [hemc])
    refine ⟨hnc.1, ?_, ?_⟩
    · rw [hnc.2.1]
      simp
    · rw [hnc.2.2]
      simp
  · intro hemc
    exact lockSection_commit_of_ok i (tickFc i s) (tickCc i s) (tickM i s)
      (resyncSt cm (tickSg i s)) (by simp)
      (by
        simp only [resyncSt_mode_current]
        exact fun hh => hemc hh.symm)
      (by simp [tickSg, hm]) hf

theorem c3_counterexample :
    (tick inpOff (initSt 3)).st.output_enabled = false ∧
    inpBase.markerPresent = true ∧ inpBase.modeRead = some 3 ∧
    (tick inpBase (tick inpOff (initSt 3)).st).fatal = none ∧
    (tick inpBase (tick inpOff (initSt 3)).st).modeWrite = some VE_MODE_OFF := by
  decide

theorem c3_resync_amended_witness :
    (tick inpBase (tick inpOff (initSt 3)).st).st.output_enabled = true ∧
    ∃ m, (tick inpBase (tick inpOff (initSt 3)).st).modeSel = some m ∧
      (m = 3 → (tick inpBase (tick inpOff (initSt 3)).st).modeWrite = none ∧
        (tick inpBase (tick inpOff (initSt 3)).st).st.mode_current = 3 ∧
        (tick inpBase (tick inpOff (initSt 3)).st).st.mode_change_lock_timer = 0) ∧
      (m ≠ 3 → (tick inpBase (tick inpOff (initSt 3)).st).modeWrite = some m ∧
        (tick inpBase (tick inpOff (initSt 3)).st).st.mode_current = m ∧
        (tick inpBase (tick inpOff (initSt 3)).st).st.mode_change_lock_timer =
          LOCK_TIME) :=
  c3_resync_amended inpBase (tick inpOff (initSt 3)).st 3 (by decide) (by decide)
    (by decide) (by decide)


/-- A failing `/GridPower` telemetry write ends the tick through the
grid-power handler with the state untouched (source lines 151-161). -/
theorem tick_gridw_fail (i : Input) (s : St)
    (hg : i.gridPower.isSome = true) (hgw : i.tel.wGridPower = true) :
    (tick i s).fatal = some .gridExit ∧ (tick i s).st = s := by
  obtain ⟨gp, hgp⟩ := Option.isSome_iff_exists.mp hg
  simp [tick, hgp, hgw]

/-- A failing `/ResidualLoad` or `/TotalLoad` telemetry write aborts the
whole tick before any state mutation: the process terminates through the
main handler and none of the tick's state updates happen (lines 179-183,
355-360). -/
theorem tick_early_main_fail (i : Input) (s : St)
    (hg : i.gridPower.isSome = true) (hgw : i.tel.wGridPower = false)
    (hr : (i.tel.wResidualLoad || i.tel.wTotalLoad) = true) :
    (tick i s).fatal = some .mainExit ∧ (tick i s).st = s := by
  obtain ⟨gp, hgp⟩ := Option.isSome_iff_exists.mp hg
  simp [tick, hgp, hgw, hr]

/-- When the final `/ModeLockTime` write fails, the mode-lock section always
ends through the main handler, whichever of its branches ran (line 353). -/
theorem lockSection_mlt_fail (i : Input) (f c : Bool) (m : Int) (x : St)
    (h : i.tel.wModeLockTime = true) :
    (lockSection i f c m x).fatal = some .mainExit := by
  unfold lockSection finishTick
  repeat' split
  all_goals simp_all

/-- A failing `/ModeOutput` write aborts a commit after the lock re-armed
but before `Mode.SetValue`, so the controller write of that commit is
suppressed (lines 349-351). -/
theorem lockSection_modeout_fail (i : Input) (f c : Bool) (m : Int) (x : St)
    (hl : ¬0 < x.mode_change_lock_timer) (hne : x.mode_current ≠ m)
    (hsoc : i.batterySoc.isSome = true) (hmo : i.tel.wModeOutput = true) :
    (lockSection i f c m x).fatal = some .mainExit ∧
    (lockSection i f c m x).modeWrite = none := by
  unfold lockSection finishTick
  repeat' split
  all_goals simp_all

/-- A failure of any main-block telemetry write that every completed tick
performs — `/ResidualLoad` through `/Mode`, or the final `/ModeLockTime` —
makes the tick fatal through the main handler (lines 174-360). -/
theorem tick_main_fail (i : Input) (s : St)
    (hg : i.gridPower.isSome = true) (hgw : i.tel.wGridPower = false)
    (hany : (i.tel.wResidualLoad || i.tel.wTotalLoad || i.tel.wFeedInDebounce || i.tel.wFeedInTimeout || i.tel.wFeedInRequest || i.tel.wFeedInRequestStableTimer || i.tel.wFeedInRequestStable || i.tel.wChargeDebounce || i.tel.wChargeTimeout || i.tel.wChargeRequest || i.tel.wChargeRequestStableTimer || i.tel.wChargeRequestStable || i.tel.wMode || i.tel.wModeLockTime) = true) :
    (tick i s).fatal = some .mainExit := by
  obtain ⟨gp, hgp⟩ := Option.isSome_iff_exists.mp hg
  simp only [Bool.or_eq_true] at hany
  rcases hany with (((((((((((((h | h) | h) | h) | h) | h) | h) | h) | h) | h) | h) | h) | h) | h)
  · simp [tick, hgp, hgw, h, apply_ite TickResult.fatal]
  · simp [tick, hgp, hgw, h, apply_ite TickResult.fatal]
  · simp [tick, hgp, hgw, h, apply_ite TickResult.fatal]
  · simp [tick, hgp, hgw, h, apply_ite TickResult.fatal]
  · simp [tick, hgp, hgw, h, apply_ite TickResult.fatal]
  · simp [tick, hgp, hgw, h, apply_ite TickResult.fatal]
  · simp [tick, hgp, hgw, h, apply_ite TickResult.fatal]
  · simp [tick, hgp, hgw, h, apply_ite TickResult.fatal]
  · simp [tick, hgp, hgw, h, apply_ite TickResult.fatal]
  · simp [tick, hgp, hgw, h, apply_ite TickResult.fatal]
  · simp [tick, hgp, hgw, h, apply_ite TickResult.fatal]
  · simp [tick, hgp, hgw, h, apply_ite TickResult.fatal]
  · simp [tick, hgp, hgw, h, apply_ite TickResult.fatal]
  · rcases tick_cases i s with ⟨hc, he⟩ | ⟨hc, he⟩ | ⟨hc, he⟩ | ⟨hc, he⟩ | ⟨hc, he⟩ |
      ⟨hc, he⟩ | ⟨hc, he⟩ | ⟨hc, he⟩ | ⟨hc, he⟩ | ⟨hc, he⟩ | ⟨hc, he⟩ |
      ⟨hc, he⟩ | ⟨hc, hmr2, he⟩ | ⟨cm, hc, hmr2, he⟩ | ⟨hc, he⟩
    all_goals try simp_all
    all_goals exact lockSection_mlt_fail _ _ _ _ _ h

/-- Claim C5 (amended): a telemetry-write failure inside one of the three
sensor-read blocks is not fatal — the block's fallback is substituted and
the tick runs to completion.  A failure of any telemetry write the tick
performs outside those blocks is fatal: the `/GridPower` write ends the
process through the grid handler with the state untouched, the first
main-block writes (`/ResidualLoad`, `/TotalLoad`) end it through the main
handler before any state update, every other always-performed main-block
write (`/FeedInDebounce` through `/Mode`, and `/ModeLockTime`) ends it
through the main handler, and a failing `/ModeOutput` write aborts the
commit performing it, suppressing that tick's controller write. -/
theorem c5_telemetry_amended :
    (∀ (i : Input) (s : St),
      i.gridPower.isSome = true → mainTelOk i.tel = true →
      i.modeRead.isSome = true → i.batterySoc.isSome = true →
      i.setModeOk = true → (tick i s).fatal = none) ∧
    (∀ (i : Input) (s : St),
      i.gridPower.isSome = true → i.tel.wGridPower = true →
      (tick i s).fatal = some .gridExit ∧ (tick i s).st = s) ∧
    (∀ (i : Input) (s : St),
      i.gridPower.isSome = true → i.tel.wGridPower = false →
      (i.tel.wResidualLoad || i.tel.wTotalLoad) = true →
      (tick i s).fatal = some .mainExit ∧ (tick i s).st = s) ∧
    (∀ (i : Input) (s : St),
      i.gridPower.isSome = true → i.tel.wGridPower = false →
      (i.tel.wResidualLoad || i.tel.wTotalLoad || i.tel.wFeedInDebounce || i.tel.wFeedInTimeout || i.tel.wFeedInRequest || i.tel.wFeedInRequestStableTimer || i.tel.wFeedInRequestStable || i.tel.wChargeDebounce || i.tel.wChargeTimeout || i.tel.wChargeRequest || i.tel.wChargeRequestStableTimer || i.tel.wChargeRequestStable || i.tel.wMode || i.tel.wModeLockTime) = true →
      (tick i s).fatal = some .mainExit) ∧
    (∀ (i : Input) (f c : Bool) (m : Int) (x : St),
      ¬0 < x.mode_change_lock_timer → x.mode_current ≠ m →
      i.batterySoc.isSome = true → i.tel.wModeOutput = true →
      (lockSection i f c m x).fatal = some .mainExit ∧
      (lockSection i f c m x).modeWrite = none) :=
  ⟨fun i s hg ht hmr hsoc hsv => tick_no_fatal i s hg ht hmr hsoc hsv,
   fun i s hg hgw => tick_gridw_fail i s hg hgw,
   fun i s hg hgw hr => tick_early_main_fail i s hg hgw hr,
   fun i s hg hgw hany => tick_main_fail i s hg hgw hany,
   fun i f c m x hl hne hsoc hmo => lockSection_modeout_fail i f c m x hl hne hsoc hmo⟩

theorem c5_telemetry_amended_witness :
    (tick inpTelEss (initSt 3)).fatal = none ∧
    ((tick inpTelGrid (initSt 3)).fatal = some .gridExit ∧
     (tick inpTelGrid (initSt 3)).st = initSt 3) ∧
    ((tick inpTelRes (initSt 3)).fatal = some .mainExit ∧
     (tick inpTelRes (initSt 3)).st = initSt 3) ∧
    (tick inpTelMain (initSt 3)).fatal = some .mainExit ∧
    ((lockSection inpTelModeOut false false 3 sFix).fatal = some .mainExit ∧
     (lockSection inpTelModeOut false false 3 sFix).modeWrite = none) :=
  ⟨c5_telemetry_amended.1 inpTelEss (initSt 3) (by decide) (by decide)
      (by decide) (by decide) (by decide),
   c5_telemetry_amended.2.1 inpTelGrid (initSt 3) (by decide) (by decide),
   c5_telemetry_amended.2.2.1 inpTelRes (initSt 3) (by decide) (by decide)
      (by decide),
   c5_telemetry_amended.2.2.2.1 inpTelMain (initSt 3) (by decide) (by decide)
      (by decide),
   c5_telemetry_amended.2.2.2.2 inpTelModeOut false false 3 sFix (by decide)
      (by decide) (by decide) (by decide)⟩

theorem c5_counterexample :
    (tick inpTelRes (initSt 3)).fatal = some .mainExit ∧
    (tick inpTelRes (initSt 3)).st = initSt 3 ∧
    (tick inp150 (initSt 3)).fatal = none ∧
    (tick inp150 (initSt 3)).st ≠ initSt 3 := by decide

/-- Claim C8: with the essential reads and writes fine, every optional
sensor read failure is replaced by its documented fallback and the tick
still completes: unreadable permission flags fall back to both-permitted, an
unreadable or non-`dbus.Int32` ESS power falls back to 0, and unreadable PV
status/power fall back to status 0 and power -1. -/
theorem c8_sensor_fallbacks (i : Input) (s : St)
    (hgrid : i.gridPower.isSome = true) (ht : i.tel = telOk)
    (hmr : i.modeRead.isSome = true) (hsoc : i.batterySoc.isSome = true)
    (hsv : i.setModeOk = true) :
    (tick i s).fatal = none ∧
    ((i.disableFeedIn = none ∨ i.disableCharge = none) →
      feedInAllowedOf i = true ∧ chargeAllowedOf i = true) ∧
    (i.essPower = none → essPowerOf i = 0) ∧
    (∀ v : Int, i.essPower = some (v, false) → essPowerOf i = 0) ∧
    ((i.pvStatus = none ∨ i.pvPower = none) →
      pvStatusOf i = 0 ∧ pvPowerOf i = -1) := by
  refine ⟨tick_no_fatal i s hgrid (by rw [ht]; rfl) hmr hsoc hsv, ?_, ?_, ?_, ?_⟩
  · rintro (h | h)
    · constructor <;> simp [feedInAllowedOf, chargeAllowedOf, h]
    · cases hdf : i.disableFeedIn <;>
        constructor <;> simp [feedInAllowedOf, chargeAllowedOf, h, hdf]
  · intro h
    simp [essPowerOf, h]
  · intro v h
    simp [essPowerOf, h]
  · rintro (h | h)
    · constructor <;> simp [pvStatusOf, pvPowerOf, h]
    · cases hps : i.pvStatus <;>
        constructor <;> simp [pvStatusOf, pvPowerOf, h, hps]

theorem c8_sensor_fallbacks_witness :
    (tick inpFallback (initSt 3)).fatal = none ∧
    ((inpFallback.disableFeedIn = none ∨ inpFallback.disableCharge = none) →
      feedInAllowedOf inpFallback = true ∧ chargeAllowedOf inpFallback = true) ∧
    (inpFallback.essPower = none → essPowerOf inpFallback = 0) ∧
    (∀ v : Int, inpFallback.essPower = some (v, false) →
      essPowerOf inpFallback = 0) ∧
    ((inpFallback.pvStatus = none ∨ inpFallback.pvPower = none) →
      pvStatusOf inpFallback = 0 ∧ pvPowerOf inpFallback = -1) :=
  c8_sensor_fallbacks inpFallback (initSt 3) (by decide) (by decide) (by decide)
    (by decide) (by decide)


end DbusAutosleep
